import Mathlib

/-!
Verification of the tax-calculation core of this repository.

The source is TypeScript; we shallow-embed it in Lean:
* JS numbers are modeled as exact rationals (`ℚ`).  All arithmetic in the
  source on the inputs of interest is decimal arithmetic on currency amounts
  and small decimal rates, which `ℚ` represents exactly.
* `Math.round` rounds half toward positive infinity, i.e. `⌊x + 1/2⌋`.
* `Math.min remaining (bracketMax - min)` with `bracketMax = Infinity`
  (the `max ?? Infinity` idiom) always selects `remaining`; the unbounded
  bracket is modeled with `Option` and that branch returns `remaining`.
* JS string helpers `toLowerCase`/`toUpperCase`/`includes`/`startsWith`
  are modeled on the character lists of Lean `String`s.
* `async` wrappers perform no suspension or I/O; the functions are modeled
  as pure functions, fallible ones returning `Except String`.
-/

namespace TaxEngine

/-- JS `Math.round`: round half toward `+∞`, as a map `ℚ → ℚ`. -/
def mathRound (q : ℚ) : ℚ := ((⌊q + 1/2⌋ : ℤ) : ℚ)

/-- `Math.round(x * 100) / 100`: round to cents. -/
def round2 (q : ℚ) : ℚ := mathRound (q * 100) / 100

/-- `Math.round(x * 10000) / 10000`: round to four decimals. -/
def round4 (q : ℚ) : ℚ := mathRound (q * 10000) / 10000

theorem mathRound_mono {a b : ℚ} (h : a ≤ b) : mathRound a ≤ mathRound b := by
  unfold mathRound
  exact_mod_cast Int.floor_le_floor (by linarith)

theorem mathRound_zero : mathRound 0 = 0 := by
  unfold mathRound
  norm_num

theorem mathRound_nonpos {a : ℚ} (h : a ≤ 0) : mathRound a ≤ 0 := by
  have := mathRound_mono h
  rwa [mathRound_zero] at this

theorem mathRound_nonneg {a : ℚ} (h : 0 ≤ a) : 0 ≤ mathRound a := by
  have := mathRound_mono h
  rwa [mathRound_zero] at this

theorem round2_mono {a b : ℚ} (h : a ≤ b) : round2 a ≤ round2 b := by
  unfold round2
  have := mathRound_mono (show a * 100 ≤ b * 100 by linarith)
  linarith

theorem round2_zero : round2 0 = 0 := by
  unfold round2
  norm_num [mathRound_zero]

theorem round2_nonpos {a : ℚ} (h : a ≤ 0) : round2 a ≤ 0 := by
  have := round2_mono h
  rwa [round2_zero] at this

theorem floor_one_half : ⌊(1/2 : ℚ)⌋ = 0 := by
  rw [Int.floor_eq_iff]
  norm_num

theorem mathRound_intCast (z : ℤ) : mathRound ((z : ℚ)) = z := by
  unfold mathRound
  rw [Int.floor_int_add, floor_one_half]
  norm_num

theorem mathRound_natLit (n : ℕ) [n.AtLeastTwo] :
    mathRound (no_index (OfNat.ofNat n) : ℚ) = OfNat.ofNat n := by
  rw [show (OfNat.ofNat n : ℚ) = ((OfNat.ofNat n : ℤ) : ℚ) by norm_num,
    mathRound_intCast]

theorem mathRound_one : mathRound (1 : ℚ) = 1 := by
  rw [show (1 : ℚ) = ((1 : ℤ) : ℚ) by norm_num, mathRound_intCast]

/-- The filing statuses recognized by the engine. -/
inductive FilingStatus
  | single
  | married_joint
  | married_separate
  | head_of_household
deriving DecidableEq, Repr

/-- A tax bracket; `max = none` models the source's `max: null` (unbounded). -/
structure Bracket where
  rate : ℚ
  min : ℚ
  max : Option ℚ
deriving DecidableEq, Repr

/-- 2024 federal income tax bracket tables, from the source `BRACKETS`. -/
def BRACKETS : FilingStatus → List Bracket
  | .single =>
    [ { rate := 0.1, min := 0, max := some 11600 },
      { rate := 0.12, min := 11600, max := some 47150 },
      { rate := 0.22, min := 47150, max := some 100525 },
      { rate := 0.24, min := 100525, max := some 191950 },
      { rate := 0.32, min := 191950, max := some 243725 },
      { rate := 0.35, min := 243725, max := some 609350 },
      { rate := 0.37, min := 609350, max := none } ]
  | .married_joint =>
    [ { rate := 0.1, min := 0, max := some 23200 },
      { rate := 0.12, min := 23200, max := some 94300 },
      { rate := 0.22, min := 94300, max := some 201050 },
      { rate := 0.24, min := 201050, max := some 383900 },
      { rate := 0.32, min := 383900, max := some 487450 },
      { rate := 0.35, min := 487450, max := some 731200 },
      { rate := 0.37, min := 731200, max := none } ]
  | .married_separate =>
    [ { rate := 0.1, min := 0, max := some 11600 },
      { rate := 0.12, min := 11600, max := some 47150 },
      { rate := 0.22, min := 47150, max := some 100525 },
      { rate := 0.24, min := 100525, max := some 191950 },
      { rate := 0.32, min := 191950, max := some 243725 },
      { rate := 0.35, min := 243725, max := some 365600 },
      { rate := 0.37, min := 365600, max := none } ]
  | .head_of_household =>
    [ { rate := 0.1, min := 0, max := some 16550 },
      { rate := 0.12, min := 16550, max := some 63100 },
      { rate := 0.22, min := 63100, max := some 100500 },
      { rate := 0.24, min := 100500, max := some 191950 },
      { rate := 0.32, min := 191950, max := some 243700 },
      { rate := 0.35, min := 243700, max := some 609350 },
      { rate := 0.37, min := 609350, max := none } ]

/-- Standard deductions (2024), from the source `STANDARD_DEDUCTIONS`. -/
def STANDARD_DEDUCTIONS : FilingStatus → ℚ
  | .single => 14600
  | .married_joint => 29200
  | .married_separate => 14600
  | .head_of_household => 21900

def SS_RATE : ℚ := 0.062
def SS_WAGE_BASE : ℚ := 168600
def MEDICARE_RATE : ℚ := 0.0145
def MEDICARE_SURTAX_RATE : ℚ := 0.009

def MEDICARE_SURTAX_THRESHOLD : FilingStatus → ℚ
  | .single => 200000
  | .married_joint => 250000
  | .married_separate => 125000
  | .head_of_household => 200000

def HSA_LIMIT_SELF : ℚ := 4150
def LIMIT_401K : ℚ := 23000
def IRA_LIMIT : ℚ := 7000
def IRA_INCOME_LIMIT_SINGLE : ℚ := 87000
def IRA_INCOME_LIMIT_JOINT : ℚ := 143000

/-- A caller-supplied deduction. -/
structure Deduction where
  label : String
  amount : ℚ
deriving DecidableEq, Repr

structure TaxInput where
  grossIncome : ℚ
  filingStatus : FilingStatus
  deductions : List Deduction
deriving DecidableEq, Repr

/-- One entry of the computed bracket breakdown (`max` is always resolved). -/
structure BracketBreakdown where
  rate : ℚ
  min : ℚ
  max : ℚ
  taxableAmount : ℚ
  tax : ℚ
deriving DecidableEq, Repr

structure TaxResult where
  grossIncome : ℚ
  totalDeductions : ℚ
  taxableIncome : ℚ
  federalTax : ℚ
  ficaTax : ℚ
  effectiveRate : ℚ
  marginalRate : ℚ
  takeHome : ℚ
  bracketBreakdown : List BracketBreakdown
deriving DecidableEq, Repr

/-- The `for (const bracket of brackets)` loop inside `computeFederalTax`:
walks the bracket list with the given `remaining`, accumulating raw tax,
the rate of the last bracket entered (`none` when no bracket was entered,
the loop variable `marginalRate` starts at `0`), and the breakdown entries.
`taxableIncome` is only used as the `max` fallback of the final bracket
(`bracket.max ?? taxableIncome`). -/
def bracketWalk (taxableIncome : ℚ) :
    List Bracket → ℚ → ℚ × Option ℚ × List BracketBreakdown
  | [], _ => (0, none, [])
  | b :: rest, remaining =>
    if remaining ≤ 0 then (0, none, [])
    else
      let taxableAmount :=
        match b.max with
        | some m => min remaining (m - b.min)
        | none => remaining
      let w := bracketWalk taxableIncome rest (remaining - taxableAmount)
      (taxableAmount * b.rate + w.1,
       some (w.2.1.getD b.rate),
       { rate := b.rate, min := b.min, max := b.max.getD taxableIncome,
         taxableAmount := taxableAmount,
         tax := round2 (taxableAmount * b.rate) } :: w.2.2)

structure FederalTaxOut where
  tax : ℚ
  marginalRate : ℚ
  breakdown : List BracketBreakdown
deriving DecidableEq, Repr

/-- Source `computeFederalTax`: clamp the income, walk the brackets,
round the accumulated tax to cents. -/
def computeFederalTax (taxableIncome : ℚ) (filingStatus : FilingStatus) :
    FederalTaxOut :=
  let w := bracketWalk taxableIncome (BRACKETS filingStatus) (max 0 taxableIncome)
  { tax := round2 w.1, marginalRate := w.2.1.getD 0, breakdown := w.2.2 }

/-- Source `computeFICA`. -/
def computeFICA (grossIncome : ℚ) (filingStatus : FilingStatus) : ℚ :=
  let ssTax := min grossIncome SS_WAGE_BASE * SS_RATE
  let medicareTax := grossIncome * MEDICARE_RATE
  let surtaxThreshold := MEDICARE_SURTAX_THRESHOLD filingStatus
  let surtax :=
    if grossIncome > surtaxThreshold then
      (grossIncome - surtaxThreshold) * MEDICARE_SURTAX_RATE
    else 0
  round2 (ssTax + medicareTax + surtax)

/-- JS `s.toLowerCase()` (ASCII, which is all the source uses). -/
def jsToLower (s : String) : String := ⟨s.data.map Char.toLower⟩

/-- JS `s.toUpperCase()` (ASCII, which is all the source uses). -/
def jsToUpper (s : String) : String := ⟨s.data.map Char.toUpper⟩

/-- Does the character list start with the given pattern? -/
def listStarts : List Char → List Char → Bool
  | _, [] => true
  | [], _ :: _ => false
  | c :: cs, d :: ds => decide (c = d) && listStarts cs ds

/-- Does the character list contain the pattern as a contiguous run? -/
def listContains (sub : List Char) : List Char → Bool
  | [] => sub.isEmpty
  | c :: t => listStarts (c :: t) sub || listContains sub t

/-- JS `s.startsWith(p)`. -/
def jsStartsWith (s p : String) : Bool := listStarts s.data p.data

/-- JS `s.includes(sub)`. -/
def jsIncludes (s sub : String) : Bool := listContains sub.data s.data

/-- The pre-tax label test of `calculateFederalTax`:
label contains "401k" or "hsa", case-insensitively. -/
def isPreTaxLabel (l : String) : Bool :=
  jsIncludes (jsToLower l) "401k" || jsIncludes (jsToLower l) "hsa"

/-- Source `calculateFederalTax` (the `async` wrapper does no I/O). -/
def calculateFederalTax (input : TaxInput) : TaxResult :=
  let totalDeductions := (input.deductions.map Deduction.amount).sum
  let taxableIncome := max 0 (input.grossIncome - totalDeductions)
  let f := computeFederalTax taxableIncome input.filingStatus
  let federalTax := f.tax
  let ficaTax := computeFICA input.grossIncome input.filingStatus
  let totalTax := federalTax + ficaTax
  let effectiveRate := if input.grossIncome > 0 then totalTax / input.grossIncome else 0
  let preTaxDeductions :=
    ((input.deductions.filter fun d => isPreTaxLabel d.label).map Deduction.amount).sum
  let takeHome := input.grossIncome - federalTax - ficaTax - preTaxDeductions
  { grossIncome := input.grossIncome
    totalDeductions := totalDeductions
    taxableIncome := taxableIncome
    federalTax := mathRound federalTax
    ficaTax := mathRound ficaTax
    effectiveRate := round4 effectiveRate
    marginalRate := f.marginalRate
    takeHome := mathRound takeHome
    bracketBreakdown := f.breakdown }

theorem computeFederalTax_tax (ti : ℚ) (fs : FilingStatus) :
    (computeFederalTax ti fs).tax =
      round2 (bracketWalk ti (BRACKETS fs) (max 0 ti)).1 := rfl

theorem computeFederalTax_breakdown (ti : ℚ) (fs : FilingStatus) :
    (computeFederalTax ti fs).breakdown =
      (bracketWalk ti (BRACKETS fs) (max 0 ti)).2.2 := rfl

theorem calculateFederalTax_federalTax (input : TaxInput) :
    (calculateFederalTax input).federalTax =
      mathRound (computeFederalTax
        (max 0 (input.grossIncome - (input.deductions.map Deduction.amount).sum))
        input.filingStatus).tax := rfl

theorem calculateFederalTax_ficaTax (input : TaxInput) :
    (calculateFederalTax input).ficaTax =
      mathRound (computeFICA input.grossIncome input.filingStatus) := rfl

/-- C1: the known-value scenario. Single filer, gross `60000`, no
deductions: taxable income `60000`, federal tax exactly `8253`, FICA
exactly `4590`. -/
theorem C1_known_value_scenario :
    (calculateFederalTax
        { grossIncome := 60000, filingStatus := .single, deductions := [] }).taxableIncome
        = 60000 ∧
    (calculateFederalTax
        { grossIncome := 60000, filingStatus := .single, deductions := [] }).federalTax
        = 8253 ∧
    (calculateFederalTax
        { grossIncome := 60000, filingStatus := .single, deductions := [] }).ficaTax
        = 4590 := by
  norm_num [calculateFederalTax, computeFederalTax, computeFICA, bracketWalk,
    BRACKETS, SS_RATE, SS_WAGE_BASE, MEDICARE_RATE, MEDICARE_SURTAX_RATE,
    MEDICARE_SURTAX_THRESHOLD, round2, mathRound_natLit, min_def, max_def]

/-- Helper to evaluate `mathRound` at a concrete rational. -/
theorem mathRound_eq_of {q : ℚ} (z : ℤ) (h1 : (z : ℚ) ≤ q + 1/2)
    (h2 : q + 1/2 < (z : ℚ) + 1) : mathRound q = (z : ℚ) := by
  unfold mathRound
  rw [Int.floor_eq_iff.mpr ⟨h1, h2⟩]

/-- A bracket list is a well-formed chain from `base`: the first bracket
starts at `base`, each bounded bracket has positive width and is followed
by a bracket starting at its `max`, and the final bracket is unbounded. -/
def chainB (base : ℚ) : List Bracket → Bool
  | [] => false
  | b :: rest =>
    decide (b.min = base) &&
      match b.max, rest with
      | none, [] => true
      | some m, _ :: _ => decide (base < m) && chainB m rest
      | _, _ => false

/-- Breakdown entries are contiguous from `base`: each entry starts where
the previous one ended. -/
def bdChain : ℚ → List BracketBreakdown → Prop
  | _, [] => True
  | base, e :: rest => e.min = base ∧ bdChain e.max rest

/-- The amount a bracket absorbs from the given remaining income. -/
def taxableAmt (b : Bracket) (r : ℚ) : ℚ :=
  match b.max with
  | some m => min r (m - b.min)
  | none => r

theorem taxableAmt_some {b : Bracket} {m : ℚ} (hm : b.max = some m) (r : ℚ) :
    taxableAmt b r = min r (m - b.min) := by
  unfold taxableAmt
  rw [hm]

theorem taxableAmt_none {b : Bracket} (hm : b.max = none) (r : ℚ) :
    taxableAmt b r = r := by
  unfold taxableAmt
  rw [hm]

theorem bracketWalk_nonpos (ti : ℚ) (b : Bracket) (rest : List Bracket)
    {r : ℚ} (h : r ≤ 0) : bracketWalk ti (b :: rest) r = (0, none, []) := by
  rw [bracketWalk, if_pos h]

theorem bracketWalk_cons_pos (ti : ℚ) (b : Bracket) (rest : List Bracket)
    {r : ℚ} (h : ¬ r ≤ 0) :
    bracketWalk ti (b :: rest) r =
      (taxableAmt b r * b.rate + (bracketWalk ti rest (r - taxableAmt b r)).1,
       some ((bracketWalk ti rest (r - taxableAmt b r)).2.1.getD b.rate),
       { rate := b.rate, min := b.min, max := b.max.getD ti,
         taxableAmount := taxableAmt b r,
         tax := round2 (taxableAmt b r * b.rate) } ::
         (bracketWalk ti rest (r - taxableAmt b r)).2.2) := by
  rw [bracketWalk, if_neg h]
  rfl

theorem taxableAmt_le (b : Bracket) (r : ℚ) : taxableAmt b r ≤ r := by
  unfold taxableAmt
  cases b.max with
  | some m => exact min_le_left _ _
  | none => exact le_refl r

theorem walk_sum (bs : List Bracket) :
    ∀ (base r ti : ℚ), chainB base bs = true → 0 ≤ r →
      (((bracketWalk ti bs r).2.2).map BracketBreakdown.taxableAmount).sum = r := by
  induction bs with
  | nil =>
    intro base r ti h _
    simp [chainB] at h
  | cons b rest ih =>
    intro base r ti h hr
    simp only [chainB, Bool.and_eq_true, decide_eq_true_eq] at h
    obtain ⟨hmin, h2⟩ := h
    by_cases hr0 : r ≤ 0
    · have hz : r = 0 := le_antisymm hr0 hr
      rw [bracketWalk_nonpos ti b rest hr0]
      simp [hz]
    · cases hm : b.max with
      | none =>
        rw [hm] at h2
        cases rest with
        | cons c t => simp at h2
        | nil =>
          rw [bracketWalk_cons_pos ti b [] hr0, taxableAmt_none hm]
          simp [bracketWalk]
      | some m =>
        rw [hm] at h2
        cases rest with
        | nil => simp at h2
        | cons c t =>
          simp only [Bool.and_eq_true, decide_eq_true_eq] at h2
          obtain ⟨hlt, hchain⟩ := h2
          have hta : 0 ≤ r - min r (m - b.min) :=
            sub_nonneg.mpr (min_le_left _ _)
          have hrec := ih m (r - min r (m - b.min)) ti hchain hta
          rw [bracketWalk_cons_pos ti b (c :: t) hr0, taxableAmt_some hm]
          simp only [List.map_cons, List.sum_cons, hrec]
          ring

theorem walk_bdChain (bs : List Bracket) :
    ∀ (base r ti : ℚ), chainB base bs = true →
      bdChain base ((bracketWalk ti bs r).2.2) := by
  induction bs with
  | nil =>
    intro base r ti h
    simp [chainB] at h
  | cons b rest ih =>
    intro base r ti h
    simp only [chainB, Bool.and_eq_true, decide_eq_true_eq] at h
    obtain ⟨hmin, h2⟩ := h
    by_cases hr0 : r ≤ 0
    · rw [bracketWalk_nonpos ti b rest hr0]
      simp [bdChain]
    · cases hm : b.max with
      | none =>
        rw [hm] at h2
        cases rest with
        | cons c t => simp at h2
        | nil =>
          rw [bracketWalk_cons_pos ti b [] hr0]
          simp [bracketWalk, bdChain, hmin]
      | some m =>
        rw [hm] at h2
        cases rest with
        | nil => simp at h2
        | cons c t =>
          simp only [Bool.and_eq_true, decide_eq_true_eq] at h2
          obtain ⟨hlt, hchain⟩ := h2
          have hrec := ih m (r - taxableAmt b r) ti hchain
          rw [bracketWalk_cons_pos ti b (c :: t) hr0]
          simp only [bdChain, hm, Option.getD_some]
          exact ⟨hmin, hrec⟩

theorem walk_taxable_pos (bs : List Bracket) :
    ∀ (base r ti : ℚ), chainB base bs = true →
      ∀ e ∈ (bracketWalk ti bs r).2.2, 0 < e.taxableAmount := by
  induction bs with
  | nil =>
    intro base r ti h
    simp [chainB] at h
  | cons b rest ih =>
    intro base r ti h
    simp only [chainB, Bool.and_eq_true, decide_eq_true_eq] at h
    obtain ⟨hmin, h2⟩ := h
    by_cases hr0 : r ≤ 0
    · rw [bracketWalk_nonpos ti b rest hr0]
      simp
    · have hrpos : 0 < r := lt_of_not_le hr0
      cases hm : b.max with
      | none =>
        rw [hm] at h2
        cases rest with
        | cons c t => simp at h2
        | nil =>
          intro e he
          rw [bracketWalk_cons_pos ti b [] hr0, taxableAmt_none hm] at he
          simp only [bracketWalk, List.mem_cons, List.not_mem_nil,
            or_false] at he
          simp [he, hrpos]
      | some m =>
        rw [hm] at h2
        cases rest with
        | nil => simp at h2
        | cons c t =>
          simp only [Bool.and_eq_true, decide_eq_true_eq] at h2
          obtain ⟨hlt, hchain⟩ := h2
          intro e he
          rw [bracketWalk_cons_pos ti b (c :: t) hr0, taxableAmt_some hm] at he
          simp only [List.mem_cons] at he
          rcases he with he | he
          · have hw : 0 < m - b.min := by rw [hmin]; linarith
            simp [he, lt_min_iff, hrpos, hw]
          · exact ih m (r - min r (m - b.min)) ti hchain e he

theorem walk_coverage (bs : List Bracket) :
    ∀ (r ti : ℚ),
      List.Forall₂
        (fun b e => e.rate = b.rate ∧ e.min = b.min ∧ e.max = b.max.getD ti)
        (bs.take ((bracketWalk ti bs r).2.2).length) ((bracketWalk ti bs r).2.2) := by
  induction bs with
  | nil =>
    intro r ti
    simp [bracketWalk]
  | cons b rest ih =>
    intro r ti
    by_cases hr0 : r ≤ 0
    · rw [bracketWalk_nonpos ti b rest hr0]
      simp
    · rw [bracketWalk_cons_pos ti b rest hr0]
      simp only [List.length_cons, List.take_succ_cons]
      exact List.Forall₂.cons ⟨rfl, rfl, rfl⟩ (ih _ ti)

theorem chainB_BRACKETS (fs : FilingStatus) : chainB 0 (BRACKETS fs) = true := by
  cases fs <;> decide

/-- C2: for every filing status and every non-negative taxable income, the
breakdown of `computeFederalTax` partitions the income exactly: the
`taxableAmount`s sum to the taxable income, the entries are contiguous
starting at `0`, every entry covers a positive amount (only traversed
brackets appear), and the entries are exactly an initial segment of the
bracket table (rate, lower bound, and resolved upper bound agree). -/
theorem C2_bracket_partition (fs : FilingStatus) (q : ℚ) (h : 0 ≤ q) :
    (((computeFederalTax q fs).breakdown).map BracketBreakdown.taxableAmount).sum = q ∧
    bdChain 0 (computeFederalTax q fs).breakdown ∧
    (∀ e ∈ (computeFederalTax q fs).breakdown, 0 < e.taxableAmount) ∧
    List.Forall₂
      (fun b e => e.rate = b.rate ∧ e.min = b.min ∧ e.max = b.max.getD q)
      ((BRACKETS fs).take (computeFederalTax q fs).breakdown.length)
      (computeFederalTax q fs).breakdown := by
  have hmax : max 0 q = q := max_eq_right h
  refine ⟨?_, ?_, ?_, ?_⟩
  · simpa [computeFederalTax, hmax] using
      walk_sum (BRACKETS fs) 0 q q (chainB_BRACKETS fs) h
  · simpa [computeFederalTax, hmax] using
      walk_bdChain (BRACKETS fs) 0 q q (chainB_BRACKETS fs)
  · simpa [computeFederalTax, hmax] using
      walk_taxable_pos (BRACKETS fs) 0 q q (chainB_BRACKETS fs)
  · simpa [computeFederalTax, hmax] using walk_coverage (BRACKETS fs) q q

theorem mathRound_neg_natLit (n : ℕ) [n.AtLeastTwo] :
    mathRound (-(no_index (OfNat.ofNat n)) : ℚ) = -(OfNat.ofNat n) := by
  rw [show (-(OfNat.ofNat n) : ℚ) = ((-(OfNat.ofNat n) : ℤ) : ℚ) by norm_num,
    mathRound_intCast]

theorem round4_zero : round4 0 = 0 := by
  unfold round4
  norm_num [mathRound_zero]

theorem bracketWalk_zero (ti : ℚ) (bs : List Bracket) :
    bracketWalk ti bs 0 = (0, none, []) := by
  cases bs with
  | nil => rfl
  | cons b rest => exact bracketWalk_nonpos ti b rest le_rfl

theorem computeFederalTax_zero (fs : FilingStatus) :
    computeFederalTax 0 fs = { tax := 0, marginalRate := 0, breakdown := [] } := by
  simp [computeFederalTax, bracketWalk_zero, round2_zero]

/-- Witness for C2 at the single filer with taxable income 60000. -/
theorem C2_bracket_partition_witness :
    (0 : ℚ) ≤ 60000 ∧
    ((((computeFederalTax 60000 .single).breakdown).map
        BracketBreakdown.taxableAmount).sum = 60000 ∧
      bdChain 0 (computeFederalTax 60000 .single).breakdown ∧
      (∀ e ∈ (computeFederalTax 60000 .single).breakdown, 0 < e.taxableAmount) ∧
      List.Forall₂
        (fun b e => e.rate = b.rate ∧ e.min = b.min ∧ e.max = b.max.getD 60000)
        ((BRACKETS .single).take (computeFederalTax 60000 .single).breakdown.length)
        (computeFederalTax 60000 .single).breakdown) :=
  ⟨by norm_num, C2_bracket_partition .single 60000 (by norm_num)⟩

/-- C3 counterexample: at gross income `-1000` (single, no deductions) the
code returns `ficaTax = -76`, not `0`: `computeFICA` is applied to the raw
(negative) gross income, so the claim fails as stated. -/
theorem C3_counterexample :
    (calculateFederalTax { grossIncome := -1000, filingStatus := .single, deductions := [] }).ficaTax = -76 ∧
    ¬ (calculateFederalTax { grossIncome := -1000, filingStatus := .single, deductions := [] }).ficaTax = 0 := by
  have hfica : computeFICA (-1000) .single = -(153/2) := by
    norm_num [computeFICA, SS_RATE, SS_WAGE_BASE, MEDICARE_RATE,
      MEDICARE_SURTAX_RATE, MEDICARE_SURTAX_THRESHOLD, round2, min_def,
      mathRound_neg_natLit]
  have hround : mathRound (-(153/2) : ℚ) = -76 := by
    rw [mathRound_eq_of (-76) (by norm_num) (by norm_num)]
    norm_num
  have hmain : (calculateFederalTax { grossIncome := -1000, filingStatus := .single, deductions := [] }).ficaTax = -76 := by
    simp only [calculateFederalTax]
    rw [hfica, hround]
  exact ⟨hmain, by rw [hmain]; norm_num⟩

/-- C3 (amended): for gross income `≤ 0` and non-negative deduction amounts,
taxable income is clamped to `0` and federal tax, marginal rate and
effective rate are `0`; FICA is the rounded FICA of the raw gross income,
hence only non-positive in general and `0` exactly when the gross income is
`0`; gross income `0` with no deductions also gives take-home `0`. -/
theorem C3_nonpositive_income (fs : FilingStatus) (ds : List Deduction)
    (g : ℚ) (hg : g ≤ 0) (hds : ∀ d ∈ ds, 0 ≤ d.amount) :
    (calculateFederalTax { grossIncome := g, filingStatus := fs, deductions := ds }).taxableIncome = 0 ∧
    (calculateFederalTax { grossIncome := g, filingStatus := fs, deductions := ds }).federalTax = 0 ∧
    (calculateFederalTax { grossIncome := g, filingStatus := fs, deductions := ds }).marginalRate = 0 ∧
    (calculateFederalTax { grossIncome := g, filingStatus := fs, deductions := ds }).effectiveRate = 0 ∧
    (calculateFederalTax { grossIncome := g, filingStatus := fs, deductions := ds }).ficaTax ≤ 0 ∧
    (g = 0 → (calculateFederalTax { grossIncome := g, filingStatus := fs, deductions := ds }).ficaTax = 0) ∧
    (g = 0 → ds = [] → (calculateFederalTax { grossIncome := g, filingStatus := fs, deductions := ds }).takeHome = 0) := by
  have htot : 0 ≤ (ds.map Deduction.amount).sum := by
    apply List.sum_nonneg
    intro x hx
    obtain ⟨d, hd, rfl⟩ := List.mem_map.mp hx
    exact hds d hd
  have hti : max 0 (g - (ds.map Deduction.amount).sum) = 0 :=
    max_eq_left (by linarith)
  have hthr : (0 : ℚ) < MEDICARE_SURTAX_THRESHOLD fs := by
    cases fs <;> norm_num [MEDICARE_SURTAX_THRESHOLD]
  have hsur : ¬ g > MEDICARE_SURTAX_THRESHOLD fs := by
    push_neg
    linarith
  have hminw : min g SS_WAGE_BASE = g := by
    apply min_eq_left
    unfold SS_WAGE_BASE
    linarith
  have hfle : computeFICA g fs ≤ 0 := by
    simp only [computeFICA]
    rw [if_neg hsur, hminw]
    apply round2_nonpos
    have h1 : g * SS_RATE ≤ 0 :=
      mul_nonpos_iff.mpr (Or.inr ⟨hg, by norm_num [SS_RATE]⟩)
    have h2 : g * MEDICARE_RATE ≤ 0 :=
      mul_nonpos_iff.mpr (Or.inr ⟨hg, by norm_num [MEDICARE_RATE]⟩)
    linarith
  have hfz : g = 0 → computeFICA g fs = 0 := by
    intro h0
    subst h0
    simp only [computeFICA]
    rw [if_neg hsur, hminw]
    norm_num [round2_zero]
  refine ⟨?_, ?_, ?_, ?_, ?_, ?_, ?_⟩
  · simp only [calculateFederalTax]
    exact hti
  · simp only [calculateFederalTax]
    rw [hti, computeFederalTax_zero]
    exact mathRound_zero
  · simp only [calculateFederalTax]
    rw [hti, computeFederalTax_zero]
  · simp only [calculateFederalTax]
    rw [if_neg (by push_neg; exact hg), round4_zero]
  · simp only [calculateFederalTax]
    exact mathRound_nonpos hfle
  · intro h0
    simp only [calculateFederalTax]
    rw [hfz h0, mathRound_zero]
  · intro h0 hds0
    subst h0
    subst hds0
    norm_num [calculateFederalTax, computeFederalTax_zero, hfz rfl,
      mathRound_zero]

/-- Witness for the amended C3 at gross income 0, single, no deductions. -/
theorem C3_nonpositive_income_witness :
    ((0 : ℚ) ≤ 0 ∧ (∀ d ∈ ([] : List Deduction), 0 ≤ d.amount)) ∧
    ((calculateFederalTax { grossIncome := 0, filingStatus := .single, deductions := [] }).taxableIncome = 0 ∧
      (calculateFederalTax { grossIncome := 0, filingStatus := .single, deductions := [] }).federalTax = 0 ∧
      (calculateFederalTax { grossIncome := 0, filingStatus := .single, deductions := [] }).marginalRate = 0 ∧
      (calculateFederalTax { grossIncome := 0, filingStatus := .single, deductions := [] }).effectiveRate = 0 ∧
      (calculateFederalTax { grossIncome := 0, filingStatus := .single, deductions := [] }).ficaTax ≤ 0 ∧
      ((0 : ℚ) = 0 → (calculateFederalTax { grossIncome := 0, filingStatus := .single, deductions := [] }).ficaTax = 0) ∧
      ((0 : ℚ) = 0 → ([] : List Deduction) = [] →
        (calculateFederalTax { grossIncome := 0, filingStatus := .single, deductions := [] }).takeHome = 0)) :=
  ⟨⟨le_rfl, by simp⟩, C3_nonpositive_income .single [] 0 le_rfl (by simp)⟩

/-- All bracket rates are non-negative. -/
def ratesNonneg (bs : List Bracket) : Bool :=
  bs.all fun b => decide (0 ≤ b.rate)

/-- All bounded brackets have non-negative width. -/
def widthsNonneg (bs : List Bracket) : Bool :=
  bs.all fun b =>
    match b.max with
    | some m => decide (b.min ≤ m)
    | none => true

theorem taxableAmt_nonneg {b : Bracket} {r : ℚ} (hr : 0 ≤ r)
    (hw : ∀ m, b.max = some m → b.min ≤ m) : 0 ≤ taxableAmt b r := by
  unfold taxableAmt
  cases hm : b.max with
  | some m => exact le_min hr (sub_nonneg.mpr (hw m hm))
  | none => exact hr

theorem taxableAmt_mono (b : Bracket) {r1 r2 : ℚ} (h : r1 ≤ r2) :
    taxableAmt b r1 ≤ taxableAmt b r2 := by
  unfold taxableAmt
  cases b.max with
  | some m => exact min_le_min h le_rfl
  | none => exact h

theorem sub_taxableAmt_mono (b : Bracket) {r1 r2 : ℚ} (h : r1 ≤ r2) :
    r1 - taxableAmt b r1 ≤ r2 - taxableAmt b r2 := by
  cases hm : b.max with
  | some m =>
    rw [taxableAmt_some hm, taxableAmt_some hm, min_def, min_def]
    split_ifs <;> linarith
  | none =>
    rw [taxableAmt_none hm, taxableAmt_none hm]
    simp

theorem widths_head {b : Bracket}
    (h : (match b.max with
          | some m => decide (b.min ≤ m)
          | none => true) = true) :
    ∀ m, b.max = some m → b.min ≤ m := by
  intro m hm
  rw [hm] at h
  simpa using h

theorem walk_tax_nonneg (bs : List Bracket) :
    ∀ (r ti : ℚ), ratesNonneg bs = true → widthsNonneg bs = true →
      0 ≤ (bracketWalk ti bs r).1 := by
  induction bs with
  | nil =>
    intro r ti _ _
    simp [bracketWalk]
  | cons b rest ih =>
    intro r ti hrs hws
    simp only [ratesNonneg, List.all_cons, Bool.and_eq_true,
      decide_eq_true_eq] at hrs
    simp only [widthsNonneg, List.all_cons, Bool.and_eq_true] at hws
    obtain ⟨hb, hrest⟩ := hrs
    obtain ⟨hwb, hwrest⟩ := hws
    by_cases hr0 : r ≤ 0
    · rw [bracketWalk_nonpos ti b rest hr0]
    · rw [bracketWalk_cons_pos ti b rest hr0]
      have hta : 0 ≤ taxableAmt b r :=
        taxableAmt_nonneg (le_of_lt (lt_of_not_le hr0)) (widths_head hwb)
      exact add_nonneg (mul_nonneg hta hb) (ih _ ti hrest hwrest)

theorem walk_tax_mono (bs : List Bracket) :
    ∀ (r1 r2 ti1 ti2 : ℚ), ratesNonneg bs = true → widthsNonneg bs = true →
      r1 ≤ r2 → (bracketWalk ti1 bs r1).1 ≤ (bracketWalk ti2 bs r2).1 := by
  induction bs with
  | nil =>
    intro r1 r2 ti1 ti2 _ _ _
    simp [bracketWalk]
  | cons b rest ih =>
    intro r1 r2 ti1 ti2 hrs hws h12
    by_cases h1 : r1 ≤ 0
    · rw [bracketWalk_nonpos ti1 b rest h1]
      exact walk_tax_nonneg (b :: rest) r2 ti2 hrs hws
    · have h2 : ¬ r2 ≤ 0 := fun hh => h1 (le_trans h12 hh)
      simp only [ratesNonneg, List.all_cons, Bool.and_eq_true,
        decide_eq_true_eq] at hrs
      simp only [widthsNonneg, List.all_cons, Bool.and_eq_true] at hws
      obtain ⟨hb, hrest⟩ := hrs
      obtain ⟨hwb, hwrest⟩ := hws
      rw [bracketWalk_cons_pos ti1 b rest h1, bracketWalk_cons_pos ti2 b rest h2]
      have hmul : taxableAmt b r1 * b.rate ≤ taxableAmt b r2 * b.rate :=
        mul_le_mul_of_nonneg_right (taxableAmt_mono b h12) hb
      have hrec := ih (r1 - taxableAmt b r1) (r2 - taxableAmt b r2) ti1 ti2
        hrest hwrest (sub_taxableAmt_mono b h12)
      dsimp only
      linarith

theorem BRACKETS_ratesNonneg (fs : FilingStatus) :
    ratesNonneg (BRACKETS fs) = true := by
  cases fs <;> norm_num [ratesNonneg, BRACKETS]

theorem BRACKETS_widthsNonneg (fs : FilingStatus) :
    widthsNonneg (BRACKETS fs) = true := by
  cases fs <;> norm_num [widthsNonneg, BRACKETS]

theorem computeFICA_mono (fs : FilingStatus) {g1 g2 : ℚ} (h : g1 ≤ g2) :
    computeFICA g1 fs ≤ computeFICA g2 fs := by
  unfold computeFICA
  apply round2_mono
  have hs : min g1 SS_WAGE_BASE * SS_RATE ≤ min g2 SS_WAGE_BASE * SS_RATE :=
    mul_le_mul_of_nonneg_right (min_le_min h le_rfl) (by norm_num [SS_RATE])
  have hm : g1 * MEDICARE_RATE ≤ g2 * MEDICARE_RATE :=
    mul_le_mul_of_nonneg_right h (by norm_num [MEDICARE_RATE])
  have hrate : (0 : ℚ) ≤ MEDICARE_SURTAX_RATE := by
    norm_num [MEDICARE_SURTAX_RATE]
  by_cases h1 : g1 > MEDICARE_SURTAX_THRESHOLD fs <;>
    by_cases h2 : g2 > MEDICARE_SURTAX_THRESHOLD fs
  · rw [if_pos h1, if_pos h2]
    nlinarith
  · exact absurd (lt_of_lt_of_le h1 h) h2
  · rw [if_neg h1, if_pos h2]
    nlinarith
  · rw [if_neg h1, if_neg h2]
    linarith

/-- C7: with the filing status and deduction list held fixed, both the
returned federal tax and the returned FICA tax are monotonically
non-decreasing in gross income. -/
theorem C7_income_monotonicity (fs : FilingStatus) (ds : List Deduction)
    (g1 g2 : ℚ) (h : g1 ≤ g2) :
    (calculateFederalTax { grossIncome := g1, filingStatus := fs, deductions := ds }).federalTax ≤
      (calculateFederalTax { grossIncome := g2, filingStatus := fs, deductions := ds }).federalTax ∧
    (calculateFederalTax { grossIncome := g1, filingStatus := fs, deductions := ds }).ficaTax ≤
      (calculateFederalTax { grossIncome := g2, filingStatus := fs, deductions := ds }).ficaTax := by
  constructor
  · rw [calculateFederalTax_federalTax, calculateFederalTax_federalTax,
      computeFederalTax_tax, computeFederalTax_tax]
    apply mathRound_mono
    apply round2_mono
    exact walk_tax_mono (BRACKETS fs) _ _ _ _ (BRACKETS_ratesNonneg fs)
      (BRACKETS_widthsNonneg fs)
      (max_le_max le_rfl (max_le_max le_rfl (sub_le_sub_right h _)))
  · rw [calculateFederalTax_ficaTax, calculateFederalTax_ficaTax]
    exact mathRound_mono (computeFICA_mono fs h)

/-- Witness for C7 at gross incomes 50000 ≤ 60000, single, no deductions. -/
theorem C7_income_monotonicity_witness :
    (50000 : ℚ) ≤ 60000 ∧
    ((calculateFederalTax { grossIncome := 50000, filingStatus := .single, deductions := [] }).federalTax ≤
      (calculateFederalTax { grossIncome := 60000, filingStatus := .single, deductions := [] }).federalTax ∧
    (calculateFederalTax { grossIncome := 50000, filingStatus := .single, deductions := [] }).ficaTax ≤
      (calculateFederalTax { grossIncome := 60000, filingStatus := .single, deductions := [] }).ficaTax) :=
  ⟨by norm_num, C7_income_monotonicity .single [] 50000 60000 (by norm_num)⟩

/-- The three state tax regimes. -/
inductive TaxType
  | none
  | flat
  | progressive
deriving DecidableEq, Repr

/-- Static per-state record; omitted optional fields default to `none`
exactly like the omitted fields of the source object literals. -/
structure StateTaxInfo where
  name : String
  abbreviation : String
  taxType : TaxType
  flatRate : Option ℚ := Option.none
  brackets : Option (List Bracket) := Option.none
  standardDeduction : Option ℚ := Option.none
  notableCredits : Option (List String) := Option.none
deriving DecidableEq, Repr

structure StateTaxInput where
  stateAbbreviation : String
  grossIncome : ℚ
  filingStatus : FilingStatus
deriving DecidableEq, Repr

/-- Result of `calculateStateTax`; its bracket entries carry the same five
fields as the federal breakdown entries, so `BracketBreakdown` is reused. -/
structure StateTaxResult where
  stateName : String
  stateAbbreviation : String
  taxType : TaxType
  stateTax : ℚ
  stateEffectiveRate : ℚ
  topRate : ℚ
  brackets : List BracketBreakdown
  standardDeduction : ℚ
  notableCredits : List String
deriving DecidableEq, Repr

/-- The source's `STATE_TAX_DATA` record, as a lookup by key. -/
def STATE_TAX_DATA : String → Option StateTaxInfo
  | "AK" => some { name := "Alaska", abbreviation := "AK", taxType := .none }
  | "FL" => some { name := "Florida", abbreviation := "FL", taxType := .none }
  | "NV" => some { name := "Nevada", abbreviation := "NV", taxType := .none }
  | "NH" => some { name := "New Hampshire", abbreviation := "NH", taxType := .none,
                   notableCredits := some ["Interest & dividends tax repealed as of 2025"] }
  | "SD" => some { name := "South Dakota", abbreviation := "SD", taxType := .none }
  | "TN" => some { name := "Tennessee", abbreviation := "TN", taxType := .none }
  | "TX" => some { name := "Texas", abbreviation := "TX", taxType := .none }
  | "WA" => some { name := "Washington", abbreviation := "WA", taxType := .none,
                   notableCredits := some ["Working Families Tax Credit"] }
  | "WY" => some { name := "Wyoming", abbreviation := "WY", taxType := .none }
  | "AZ" => some { name := "Arizona", abbreviation := "AZ", taxType := .flat,
                   flatRate := some 0.025, standardDeduction := some 14600,
                   notableCredits := some ["Family tax credit", "School tax credit"] }
  | "CO" => some { name := "Colorado", abbreviation := "CO", taxType := .flat,
                   flatRate := some 0.044, standardDeduction := some 14600,
                   notableCredits := some ["Earned income tax credit (25% of federal)", "Child tax credit"] }
  | "GA" => some { name := "Georgia", abbreviation := "GA", taxType := .flat,
                   flatRate := some 0.0549, standardDeduction := some 12000,
                   notableCredits := some ["Low-income credit"] }
  | "ID" => some { name := "Idaho", abbreviation := "ID", taxType := .flat,
                   flatRate := some 0.058, standardDeduction := some 14600,
                   notableCredits := some ["Grocery credit"] }
  | "IL" => some { name := "Illinois", abbreviation := "IL", taxType := .flat,
                   flatRate := some 0.0495, standardDeduction := some 0,
                   notableCredits := some ["Earned income credit (20% of federal)", "Property tax credit"] }
  | "IN" => some { name := "Indiana", abbreviation := "IN", taxType := .flat,
                   flatRate := some 0.0305, standardDeduction := some 0,
                   notableCredits := some ["Unified tax credit", "County taxes may apply"] }
  | "KY" => some { name := "Kentucky", abbreviation := "KY", taxType := .flat,
                   flatRate := some 0.04, standardDeduction := some 3160,
                   notableCredits := some ["Family size tax credit"] }
  | "MI" => some { name := "Michigan", abbreviation := "MI", taxType := .flat,
                   flatRate := some 0.0425, standardDeduction := some 0,
                   notableCredits := some ["Home heating credit", "Earned income credit (30% of federal)"] }
  | "MS" => some { name := "Mississippi", abbreviation := "MS", taxType := .flat,
                   flatRate := some 0.05, standardDeduction := some 2300,
                   notableCredits := some ["First $10,000 exempt"] }
  | "NC" => some { name := "North Carolina", abbreviation := "NC", taxType := .flat,
                   flatRate := some 0.045, standardDeduction := some 12750,
                   notableCredits := some ["Child deduction"] }
  | "PA" => some { name := "Pennsylvania", abbreviation := "PA", taxType := .flat,
                   flatRate := some 0.0307, standardDeduction := some 0,
                   notableCredits := some ["Tax forgiveness credit", "Local taxes may apply"] }
  | "UT" => some { name := "Utah", abbreviation := "UT", taxType := .flat,
                   flatRate := some 0.0465, standardDeduction := some 0,
                   notableCredits := some ["Taxpayer tax credit (effectively reduces rate)", "At-home parent credit"] }
  | "AL" => some { name := "Alabama", abbreviation := "AL", taxType := .progressive,
                   standardDeduction := some 2500,
                   brackets := some [
                     { min := 0, max := some 500, rate := 0.02 },
                     { min := 500, max := some 3000, rate := 0.04 },
                     { min := 3000, max := Option.none, rate := 0.05 } ],
                   notableCredits := some ["Federal tax deduction allowed"] }
  | "AR" => some { name := "Arkansas", abbreviation := "AR", taxType := .progressive,
                   standardDeduction := some 2270,
                   brackets := some [
                     { min := 0, max := some 4300, rate := 0.02 },
                     { min := 4300, max := some 8500, rate := 0.04 },
                     { min := 8500, max := Option.none, rate := 0.044 } ] }
  | "CA" => some { name := "California", abbreviation := "CA", taxType := .progressive,
                   standardDeduction := some 5540,
                   brackets := some [
                     { min := 0, max := some 10412, rate := 0.01 },
                     { min := 10412, max := some 24684, rate := 0.02 },
                     { min := 24684, max := some 38959, rate := 0.04 },
                     { min := 38959, max := some 54081, rate := 0.06 },
                     { min := 54081, max := some 68350, rate := 0.08 },
                     { min := 68350, max := some 349137, rate := 0.093 },
                     { min := 349137, max := some 418961, rate := 0.103 },
                     { min := 418961, max := some 698271, rate := 0.113 },
                     { min := 698271, max := Option.none, rate := 0.123 } ],
                   notableCredits := some ["Renter\u0027s credit", "Earned income tax credit"] }
  | "CT" => some { name := "Connecticut", abbreviation := "CT", taxType := .progressive,
                   standardDeduction := some 0,
                   brackets := some [
                     { min := 0, max := some 10000, rate := 0.03 },
                     { min := 10000, max := some 50000, rate := 0.05 },
                     { min := 50000, max := some 100000, rate := 0.055 },
                     { min := 100000, max := some 200000, rate := 0.06 },
                     { min := 200000, max := some 250000, rate := 0.065 },
                     { min := 250000, max := Option.none, rate := 0.069 } ],
                   notableCredits := some ["Personal tax credit"] }
  | "DE" => some { name := "Delaware", abbreviation := "DE", taxType := .progressive,
                   standardDeduction := some 3250,
                   brackets := some [
                     { min := 0, max := some 2000, rate := 0.0 },
                     { min := 2000, max := some 5000, rate := 0.022 },
                     { min := 5000, max := some 10000, rate := 0.039 },
                     { min := 10000, max := some 20000, rate := 0.048 },
                     { min := 20000, max := some 25000, rate := 0.052 },
                     { min := 25000, max := some 60000, rate := 0.055 },
                     { min := 60000, max := Option.none, rate := 0.066 } ],
                   notableCredits := some ["Earned income credit"] }
  | "DC" => some { name := "District of Columbia", abbreviation := "DC", taxType := .progressive,
                   standardDeduction := some 14600,
                   brackets := some [
                     { min := 0, max := some 10000, rate := 0.04 },
                     { min := 10000, max := some 40000, rate := 0.06 },
                     { min := 40000, max := some 60000, rate := 0.065 },
                     { min := 60000, max := some 250000, rate := 0.085 },
                     { min := 250000, max := some 500000, rate := 0.0925 },
                     { min := 500000, max := Option.none, rate := 0.1075 } ],
                   notableCredits := some ["Earned income credit (70% of federal)"] }
  | "HI" => some { name := "Hawaii", abbreviation := "HI", taxType := .progressive,
                   standardDeduction := some 2200,
                   brackets := some [
                     { min := 0, max := some 2400, rate := 0.014 },
                     { min := 2400, max := some 4800, rate := 0.032 },
                     { min := 4800, max := some 9600, rate := 0.055 },
                     { min := 9600, max := some 14400, rate := 0.064 },
                     { min := 14400, max := some 19200, rate := 0.068 },
                     { min := 19200, max := some 24000, rate := 0.072 },
                     { min := 24000, max := some 36000, rate := 0.076 },
                     { min := 36000, max := some 48000, rate := 0.079 },
                     { min := 48000, max := some 150000, rate := 0.0825 },
                     { min := 150000, max := some 175000, rate := 0.09 },
                     { min := 175000, max := some 200000, rate := 0.10 },
                     { min := 200000, max := Option.none, rate := 0.11 } ],
                   notableCredits := some ["Low-income household renters credit"] }
  | "IA" => some { name := "Iowa", abbreviation := "IA", taxType := .progressive,
                   standardDeduction := some 2210,
                   brackets := some [
                     { min := 0, max := some 6210, rate := 0.044 },
                     { min := 6210, max := some 31050, rate := 0.0482 },
                     { min := 31050, max := Option.none, rate := 0.057 } ] }
  | "KS" => some { name := "Kansas", abbreviation := "KS", taxType := .progressive,
                   standardDeduction := some 3500,
                   brackets := some [
                     { min := 0, max := some 15000, rate := 0.031 },
                     { min := 15000, max := some 30000, rate := 0.0525 },
                     { min := 30000, max := Option.none, rate := 0.057 } ],
                   notableCredits := some ["Earned income credit (17% of federal)", "Food sales tax credit"] }
  | "LA" => some { name := "Louisiana", abbreviation := "LA", taxType := .progressive,
                   standardDeduction := some 4500,
                   brackets := some [
                     { min := 0, max := some 12500, rate := 0.0185 },
                     { min := 12500, max := some 50000, rate := 0.035 },
                     { min := 50000, max := Option.none, rate := 0.0425 } ],
                   notableCredits := some ["Earned income credit"] }
  | "ME" => some { name := "Maine", abbreviation := "ME", taxType := .progressive,
                   standardDeduction := some 14600,
                   brackets := some [
                     { min := 0, max := some 24500, rate := 0.058 },
                     { min := 24500, max := some 58050, rate := 0.0675 },
                     { min := 58050, max := Option.none, rate := 0.0715 } ],
                   notableCredits := some ["Property tax fairness credit"] }
  | "MD" => some { name := "Maryland", abbreviation := "MD", taxType := .progressive,
                   standardDeduction := some 2550,
                   brackets := some [
                     { min := 0, max := some 1000, rate := 0.02 },
                     { min := 1000, max := some 2000, rate := 0.03 },
                     { min := 2000, max := some 3000, rate := 0.04 },
                     { min := 3000, max := some 100000, rate := 0.0475 },
                     { min := 100000, max := some 125000, rate := 0.05 },
                     { min := 125000, max := some 150000, rate := 0.0525 },
                     { min := 150000, max := some 250000, rate := 0.055 },
                     { min := 250000, max := Option.none, rate := 0.0575 } ],
                   notableCredits := some ["Earned income credit (45% of federal)", "Local piggyback taxes apply"] }
  | "MA" => some { name := "Massachusetts", abbreviation := "MA", taxType := .progressive,
                   standardDeduction := some 0,
                   brackets := some [
                     { min := 0, max := some 1000000, rate := 0.05 },
                     { min := 1000000, max := Option.none, rate := 0.09 } ],
                   notableCredits := some ["No-tax status for low incomes", "Millionaire\u0027s surtax above $1M"] }
  | "MN" => some { name := "Minnesota", abbreviation := "MN", taxType := .progressive,
                   standardDeduction := some 14575,
                   brackets := some [
                     { min := 0, max := some 30070, rate := 0.0535 },
                     { min := 30070, max := some 98760, rate := 0.068 },
                     { min := 98760, max := some 183340, rate := 0.0785 },
                     { min := 183340, max := Option.none, rate := 0.0985 } ],
                   notableCredits := some ["Working family credit", "K-12 education credit"] }
  | "MO" => some { name := "Missouri", abbreviation := "MO", taxType := .progressive,
                   standardDeduction := some 14600,
                   brackets := some [
                     { min := 0, max := some 1207, rate := 0.02 },
                     { min := 1207, max := some 2414, rate := 0.025 },
                     { min := 2414, max := some 3621, rate := 0.03 },
                     { min := 3621, max := some 4828, rate := 0.035 },
                     { min := 4828, max := some 6035, rate := 0.04 },
                     { min := 6035, max := some 7242, rate := 0.045 },
                     { min := 7242, max := some 8449, rate := 0.05 },
                     { min := 8449, max := Option.none, rate := 0.048 } ] }
  | "MT" => some { name := "Montana", abbreviation := "MT", taxType := .progressive,
                   standardDeduction := some 14600,
                   brackets := some [
                     { min := 0, max := some 20500, rate := 0.047 },
                     { min := 20500, max := Option.none, rate := 0.059 } ] }
  | "NE" => some { name := "Nebraska", abbreviation := "NE", taxType := .progressive,
                   standardDeduction := some 7900,
                   brackets := some [
                     { min := 0, max := some 3700, rate := 0.0246 },
                     { min := 3700, max := some 22170, rate := 0.0351 },
                     { min := 22170, max := some 35730, rate := 0.0501 },
                     { min := 35730, max := Option.none, rate := 0.0584 } ],
                   notableCredits := some ["Earned income credit (10% of federal)"] }
  | "NJ" => some { name := "New Jersey", abbreviation := "NJ", taxType := .progressive,
                   standardDeduction := some 0,
                   brackets := some [
                     { min := 0, max := some 20000, rate := 0.014 },
                     { min := 20000, max := some 35000, rate := 0.0175 },
                     { min := 35000, max := some 40000, rate := 0.035 },
                     { min := 40000, max := some 75000, rate := 0.05525 },
                     { min := 75000, max := some 500000, rate := 0.0637 },
                     { min := 500000, max := some 1000000, rate := 0.0897 },
                     { min := 1000000, max := Option.none, rate := 0.1075 } ],
                   notableCredits := some ["Earned income credit (40% of federal)", "Property tax deduction up to $15,000"] }
  | "NM" => some { name := "New Mexico", abbreviation := "NM", taxType := .progressive,
                   standardDeduction := some 14600,
                   brackets := some [
                     { min := 0, max := some 5500, rate := 0.017 },
                     { min := 5500, max := some 11000, rate := 0.032 },
                     { min := 11000, max := some 16000, rate := 0.047 },
                     { min := 16000, max := some 210000, rate := 0.049 },
                     { min := 210000, max := Option.none, rate := 0.059 } ],
                   notableCredits := some ["Low-income comprehensive tax rebate", "Working families tax credit"] }
  | "NY" => some { name := "New York", abbreviation := "NY", taxType := .progressive,
                   standardDeduction := some 8000,
                   brackets := some [
                     { min := 0, max := some 8500, rate := 0.04 },
                     { min := 8500, max := some 11700, rate := 0.045 },
                     { min := 11700, max := some 13900, rate := 0.0525 },
                     { min := 13900, max := some 80650, rate := 0.055 },
                     { min := 80650, max := some 215400, rate := 0.06 },
                     { min := 215400, max := some 1077550, rate := 0.0685 },
                     { min := 1077550, max := Option.none, rate := 0.109 } ],
                   notableCredits := some ["Earned income credit (30% of federal)", "NYC residents pay additional city tax"] }
  | "ND" => some { name := "North Dakota", abbreviation := "ND", taxType := .progressive,
                   standardDeduction := some 14600,
                   brackets := some [
                     { min := 0, max := some 44725, rate := 0.0195 },
                     { min := 44725, max := Option.none, rate := 0.025 } ] }
  | "OH" => some { name := "Ohio", abbreviation := "OH", taxType := .progressive,
                   standardDeduction := some 0,
                   brackets := some [
                     { min := 0, max := some 26050, rate := 0.0 },
                     { min := 26050, max := some 100000, rate := 0.0275 },
                     { min := 100000, max := Option.none, rate := 0.035 } ],
                   notableCredits := some ["Personal exemption credit", "Joint filing credit", "Local taxes may apply"] }
  | "OK" => some { name := "Oklahoma", abbreviation := "OK", taxType := .progressive,
                   standardDeduction := some 6350,
                   brackets := some [
                     { min := 0, max := some 1000, rate := 0.0025 },
                     { min := 1000, max := some 2500, rate := 0.0075 },
                     { min := 2500, max := some 3750, rate := 0.0175 },
                     { min := 3750, max := some 4900, rate := 0.0275 },
                     { min := 4900, max := some 7200, rate := 0.0375 },
                     { min := 7200, max := Option.none, rate := 0.0475 } ],
                   notableCredits := some ["Earned income credit (5% of federal)"] }
  | "OR" => some { name := "Oregon", abbreviation := "OR", taxType := .progressive,
                   standardDeduction := some 2745,
                   brackets := some [
                     { min := 0, max := some 4050, rate := 0.0475 },
                     { min := 4050, max := some 10200, rate := 0.0675 },
                     { min := 10200, max := some 125000, rate := 0.0875 },
                     { min := 125000, max := Option.none, rate := 0.099 } ],
                   notableCredits := some ["Earned income credit (12% of federal)", "No sales tax"] }
  | "RI" => some { name := "Rhode Island", abbreviation := "RI", taxType := .progressive,
                   standardDeduction := some 10550,
                   brackets := some [
                     { min := 0, max := some 73450, rate := 0.0375 },
                     { min := 73450, max := some 166950, rate := 0.0475 },
                     { min := 166950, max := Option.none, rate := 0.0599 } ],
                   notableCredits := some ["Earned income credit (15% of federal)"] }
  | "SC" => some { name := "South Carolina", abbreviation := "SC", taxType := .progressive,
                   standardDeduction := some 14600,
                   brackets := some [
                     { min := 0, max := some 3460, rate := 0.0 },
                     { min := 3460, max := some 17330, rate := 0.03 },
                     { min := 17330, max := Option.none, rate := 0.064 } ],
                   notableCredits := some ["Two-earner credit"] }
  | "VT" => some { name := "Vermont", abbreviation := "VT", taxType := .progressive,
                   standardDeduction := some 14600,
                   brackets := some [
                     { min := 0, max := some 45400, rate := 0.0335 },
                     { min := 45400, max := some 110050, rate := 0.066 },
                     { min := 110050, max := some 229550, rate := 0.076 },
                     { min := 229550, max := Option.none, rate := 0.0875 } ],
                   notableCredits := some ["Earned income credit (38% of federal)"] }
  | "VA" => some { name := "Virginia", abbreviation := "VA", taxType := .progressive,
                   standardDeduction := some 8000,
                   brackets := some [
                     { min := 0, max := some 3000, rate := 0.02 },
                     { min := 3000, max := some 5000, rate := 0.03 },
                     { min := 5000, max := some 17000, rate := 0.05 },
                     { min := 17000, max := Option.none, rate := 0.0575 } ],
                   notableCredits := some ["Low-income tax credit"] }
  | "WV" => some { name := "West Virginia", abbreviation := "WV", taxType := .progressive,
                   standardDeduction := some 0,
                   brackets := some [
                     { min := 0, max := some 10000, rate := 0.0236 },
                     { min := 10000, max := some 25000, rate := 0.0315 },
                     { min := 25000, max := some 40000, rate := 0.0354 },
                     { min := 40000, max := some 60000, rate := 0.0472 },
                     { min := 60000, max := Option.none, rate := 0.0512 } ] }
  | "WI" => some { name := "Wisconsin", abbreviation := "WI", taxType := .progressive,
                   standardDeduction := some 12760,
                   brackets := some [
                     { min := 0, max := some 14320, rate := 0.035 },
                     { min := 14320, max := some 28640, rate := 0.044 },
                     { min := 28640, max := some 315310, rate := 0.053 },
                     { min := 315310, max := Option.none, rate := 0.0765 } ],
                   notableCredits := some ["Earned income credit", "Homestead credit"] }
  | _ => Option.none

/-- The progressive bracket loop of `calculateStateTax`; differs from the
federal `bracketWalk` in that each per-bracket tax is rounded to cents
before being accumulated. -/
def stateBracketWalk (taxableIncome : ℚ) :
    List Bracket → ℚ → ℚ × Option ℚ × List BracketBreakdown
  | [], _ => (0, Option.none, [])
  | b :: rest, remaining =>
    if remaining ≤ 0 then (0, Option.none, [])
    else
      let taxableAmount :=
        match b.max with
        | some m => min remaining (m - b.min)
        | Option.none => remaining
      let bracketTax := round2 (taxableAmount * b.rate)
      let w := stateBracketWalk taxableIncome rest (remaining - taxableAmount)
      (bracketTax + w.1,
       some (w.2.1.getD b.rate),
       { rate := b.rate, min := b.min, max := b.max.getD taxableIncome,
         taxableAmount := taxableAmount, tax := bracketTax } :: w.2.2)

/-- Source `calculateStateTax`; the thrown error is modeled as `Except.error`. -/
def calculateStateTax (input : StateTaxInput) : Except String StateTaxResult :=
  let abbr := jsToUpper input.stateAbbreviation
  match STATE_TAX_DATA abbr with
  | Option.none => .error ("Unknown state abbreviation: " ++ abbr)
  | some stateInfo =>
    let deduction := stateInfo.standardDeduction.getD 0
    let taxableIncome := max 0 (input.grossIncome - deduction)
    match stateInfo.taxType with
    | .none =>
      .ok { stateName := stateInfo.name, stateAbbreviation := abbr,
            taxType := .none, stateTax := 0, stateEffectiveRate := 0,
            topRate := 0, brackets := [], standardDeduction := 0,
            notableCredits := stateInfo.notableCredits.getD [] }
    | .flat =>
      let rate := stateInfo.flatRate.getD 0
      let tax := mathRound (taxableIncome * rate)
      .ok { stateName := stateInfo.name, stateAbbreviation := abbr,
            taxType := .flat, stateTax := tax,
            stateEffectiveRate :=
              if input.grossIncome > 0 then round4 (tax / input.grossIncome) else 0,
            topRate := rate,
            brackets := [{ rate := rate, min := 0, max := taxableIncome,
                           taxableAmount := taxableIncome, tax := tax }],
            standardDeduction := deduction,
            notableCredits := stateInfo.notableCredits.getD [] }
    | .progressive =>
      let brackets := stateInfo.brackets.getD []
      let w := stateBracketWalk taxableIncome brackets taxableIncome
      let stateTax := mathRound w.1
      .ok { stateName := stateInfo.name, stateAbbreviation := abbr,
            taxType := .progressive, stateTax := stateTax,
            stateEffectiveRate :=
              if input.grossIncome > 0 then round4 (stateTax / input.grossIncome) else 0,
            topRate := w.2.1.getD 0,
            brackets := w.2.2,
            standardDeduction := deduction,
            notableCredits := stateInfo.notableCredits.getD [] }

theorem stateBracketWalk_nonpos (ti : ℚ) (b : Bracket) (rest : List Bracket)
    {r : ℚ} (h : r ≤ 0) : stateBracketWalk ti (b :: rest) r = (0, Option.none, []) := by
  rw [stateBracketWalk, if_pos h]

theorem stateBracketWalk_cons_pos (ti : ℚ) (b : Bracket) (rest : List Bracket)
    {r : ℚ} (h : ¬ r ≤ 0) :
    stateBracketWalk ti (b :: rest) r =
      (round2 (taxableAmt b r * b.rate) +
         (stateBracketWalk ti rest (r - taxableAmt b r)).1,
       some ((stateBracketWalk ti rest (r - taxableAmt b r)).2.1.getD b.rate),
       { rate := b.rate, min := b.min, max := b.max.getD ti,
         taxableAmount := taxableAmt b r,
         tax := round2 (taxableAmt b r * b.rate) } ::
         (stateBracketWalk ti rest (r - taxableAmt b r)).2.2) := by
  rw [stateBracketWalk, if_neg h]
  rfl

theorem stateBracketWalk_zero (ti : ℚ) (bs : List Bracket) :
    stateBracketWalk ti bs 0 = (0, Option.none, []) := by
  cases bs with
  | nil => rfl
  | cons b rest => exact stateBracketWalk_nonpos ti b rest le_rfl

theorem stateWalk_none_iff (bs : List Bracket) :
    ∀ (r ti : ℚ), (stateBracketWalk ti bs r).2.1 = Option.none ↔
      (stateBracketWalk ti bs r).2.2 = [] := by
  induction bs with
  | nil =>
    intro r ti
    simp [stateBracketWalk]
  | cons b rest _ =>
    intro r ti
    by_cases h : r ≤ 0
    · rw [stateBracketWalk_nonpos ti b rest h]
      simp
    · rw [stateBracketWalk_cons_pos ti b rest h]
      simp

theorem stateWalk_topRate_last (bs : List Bracket) :
    ∀ (r ti : ℚ),
      (stateBracketWalk ti bs r).2.1.getD 0 =
        (((stateBracketWalk ti bs r).2.2.getLast?).map BracketBreakdown.rate).getD 0 := by
  induction bs with
  | nil =>
    intro r ti
    simp [stateBracketWalk]
  | cons b rest ih =>
    intro r ti
    by_cases h : r ≤ 0
    · rw [stateBracketWalk_nonpos ti b rest h]
      simp
    · rw [stateBracketWalk_cons_pos ti b rest h]
      rcases hw : (stateBracketWalk ti rest (r - taxableAmt b r)).2.2 with _ | ⟨c, t⟩
      · have hn : (stateBracketWalk ti rest (r - taxableAmt b r)).2.1 = Option.none :=
          (stateWalk_none_iff rest _ ti).mpr hw
        simp [hn, hw]
      · have hne : (stateBracketWalk ti rest (r - taxableAmt b r)).2.1 ≠ Option.none := by
          intro hcontra
          have := (stateWalk_none_iff rest (r - taxableAmt b r) ti).mp hcontra
          rw [this] at hw
          exact List.noConfusion hw
        obtain ⟨tr, htr⟩ := Option.ne_none_iff_exists'.mp hne
        have hih := ih (r - taxableAmt b r) ti
        rw [htr, hw] at hih
        simp only [Option.getD_some] at hih
        simp [htr, hw, List.getLast?_cons_cons, hih]

theorem stateWalk_coverage (bs : List Bracket) :
    ∀ (r ti : ℚ),
      List.Forall₂
        (fun b e => e.rate = b.rate ∧ e.min = b.min ∧ e.max = b.max.getD ti)
        (bs.take ((stateBracketWalk ti bs r).2.2).length)
        ((stateBracketWalk ti bs r).2.2) := by
  induction bs with
  | nil =>
    intro r ti
    simp [stateBracketWalk]
  | cons b rest ih =>
    intro r ti
    by_cases hr0 : r ≤ 0
    · rw [stateBracketWalk_nonpos ti b rest hr0]
      simp
    · rw [stateBracketWalk_cons_pos ti b rest hr0]
      simp only [List.length_cons, List.take_succ_cons]
      exact List.Forall₂.cons ⟨rfl, rfl, rfl⟩ (ih _ ti)

/-- C6: when the uppercased abbreviation is not a key of the static state
table, `calculateStateTax` fails with an error naming that abbreviation;
when it is a key (supplied in any letter case), a full `StateTaxResult` is
returned, carrying that state's own name and regime, never a default. -/
theorem C6_unknown_state_error (input : StateTaxInput) :
    (STATE_TAX_DATA (jsToUpper input.stateAbbreviation) = Option.none →
      calculateStateTax input =
        Except.error ("Unknown state abbreviation: " ++
          jsToUpper input.stateAbbreviation)) ∧
    (∀ info, STATE_TAX_DATA (jsToUpper input.stateAbbreviation) = some info →
      ∃ res, calculateStateTax input = Except.ok res ∧
        res.stateName = info.name ∧ res.taxType = info.taxType ∧
        res.stateAbbreviation = jsToUpper input.stateAbbreviation) := by
  constructor
  · intro h
    simp only [calculateStateTax, h]
  · intro info h
    cases ht : info.taxType
    all_goals
      simp only [calculateStateTax, h, ht]
      exact ⟨_, rfl, rfl, rfl, rfl⟩

/-- Witness for C6: "zz" (uppercased "ZZ") is unknown and errors naming it;
"tx" in lower case resolves to Texas and returns a full result. -/
theorem C6_unknown_state_error_witness :
    (STATE_TAX_DATA (jsToUpper "zz") = Option.none ∧
      calculateStateTax { stateAbbreviation := "zz", grossIncome := 100000, filingStatus := .single } =
        Except.error ("Unknown state abbreviation: " ++ jsToUpper "zz")) ∧
    (STATE_TAX_DATA (jsToUpper "tx") =
        some { name := "Texas", abbreviation := "TX", taxType := TaxType.none } ∧
      ∃ res, calculateStateTax { stateAbbreviation := "tx", grossIncome := 100000, filingStatus := .single } =
          Except.ok res ∧
        res.stateName = "Texas" ∧ res.taxType = TaxType.none ∧
        res.stateAbbreviation = jsToUpper "tx") := by
  constructor
  · exact ⟨rfl, (C6_unknown_state_error _).1 rfl⟩
  · exact ⟨rfl, (C6_unknown_state_error _).2
      { name := "Texas", abbreviation := "TX", taxType := TaxType.none } rfl⟩

/-- The Delaware entry of the state table, for concrete reasoning. -/
theorem STATE_TAX_DATA_DE :
    STATE_TAX_DATA "DE" = some
      { name := "Delaware", abbreviation := "DE", taxType := .progressive,
        standardDeduction := some 3250,
        brackets := some [
          { min := 0, max := some 2000, rate := 0.0 },
          { min := 2000, max := some 5000, rate := 0.022 },
          { min := 5000, max := some 10000, rate := 0.039 },
          { min := 10000, max := some 20000, rate := 0.048 },
          { min := 20000, max := some 25000, rate := 0.052 },
          { min := 25000, max := some 60000, rate := 0.055 },
          { min := 60000, max := Option.none, rate := 0.066 } ],
        notableCredits := some ["Earned income credit"] } := rfl

/-- C9: for every progressive-state result, `topRate` is the rate of the
last breakdown entry produced by the bracket walk (`0` when no bracket was
entered); in particular Delaware with gross income at most `5250` (taxable
income at most `2000`, inside the leading 0%-rate bracket) reports
`topRate = 0`. -/
theorem C9_topRate_last_traversed :
    (∀ (input : StateTaxInput) (res : StateTaxResult),
      calculateStateTax input = Except.ok res → res.taxType = .progressive →
      res.topRate = ((res.brackets.getLast?).map BracketBreakdown.rate).getD 0) ∧
    (∀ g : ℚ, g ≤ 5250 → ∀ res : StateTaxResult,
      calculateStateTax { stateAbbreviation := "DE", grossIncome := g, filingStatus := .single } =
        Except.ok res →
      res.topRate = 0) := by
  constructor
  · intro input res h ht
    rcases hl : STATE_TAX_DATA (jsToUpper input.stateAbbreviation) with _ | info
    · simp only [calculateStateTax, hl] at h
      exact Except.noConfusion h
    · cases htT : info.taxType
      · simp only [calculateStateTax, hl, htT, Except.ok.injEq] at h
        subst h
        simp at ht
      · simp only [calculateStateTax, hl, htT, Except.ok.injEq] at h
        subst h
        simp at ht
      · simp only [calculateStateTax, hl, htT, Except.ok.injEq] at h
        subst h
        exact stateWalk_topRate_last _ _ _
  · intro g hg res h
    have hup : jsToUpper "DE" = "DE" := by decide
    simp only [calculateStateTax, hup, STATE_TAX_DATA_DE, Option.getD_some,
      Except.ok.injEq] at h
    subst h
    dsimp only [Option.getD_some]
    have h0 : (0 : ℚ) ≤ max 0 (g - 3250) := le_max_left _ _
    have h2k : max 0 (g - 3250) ≤ 2000 := max_le (by norm_num) (by linarith)
    by_cases hz : max 0 (g - 3250) ≤ 0
    · rw [le_antisymm hz h0, stateBracketWalk_zero]
      rfl
    · rw [stateBracketWalk_cons_pos _ _ _ hz]
      rw [show taxableAmt { min := (0:ℚ), max := some 2000, rate := 0.0 }
            (max 0 (g - 3250)) = max 0 (g - 3250) from by
        rw [taxableAmt_some rfl]
        exact min_eq_left (by simpa using h2k)]
      rw [sub_self, stateBracketWalk_zero]
      norm_num

/-- Witness input for C9 and C10: Delaware at gross income 5000 (taxable
1750, entirely inside the 0%-rate bracket). -/
theorem calcStateTax_DE5000 :
    calculateStateTax { stateAbbreviation := "DE", grossIncome := 5000, filingStatus := .single } =
      Except.ok
        { stateName := "Delaware", stateAbbreviation := "DE",
          taxType := .progressive, stateTax := 0, stateEffectiveRate := 0,
          topRate := 0,
          brackets := [{ rate := 0, min := 0, max := 2000, taxableAmount := 1750, tax := 0 }],
          standardDeduction := 3250,
          notableCredits := ["Earned income credit"] } := by
  have hup : jsToUpper "DE" = "DE" := by decide
  norm_num [calculateStateTax, hup, STATE_TAX_DATA_DE, stateBracketWalk, round2,
    round4, mathRound_zero, min_def, max_def]

/-- Witness for C9: applies both conjuncts at Delaware, gross income 5000. -/
theorem C9_topRate_last_traversed_witness :
    (5000 : ℚ) ≤ 5250 ∧
    ∃ res : StateTaxResult,
      calculateStateTax { stateAbbreviation := "DE", grossIncome := 5000, filingStatus := .single } =
        Except.ok res ∧
      res.topRate = 0 ∧
      res.topRate = ((res.brackets.getLast?).map BracketBreakdown.rate).getD 0 := by
  refine ⟨by norm_num, _, calcStateTax_DE5000, ?_, ?_⟩
  · exact C9_topRate_last_traversed.2 5000 (by norm_num) _ calcStateTax_DE5000
  · exact C9_topRate_last_traversed.1 _ _ calcStateTax_DE5000 rfl

/-- C10: in every federal breakdown and every progressive-state breakdown,
the entries correspond to an initial segment of the source bracket table
with `max` resolved as `b.max.getD taxableIncome`: a bracket with a finite
bound reports that bound, and the unbounded final bracket reports the
computation's taxable income itself, so every reported `max` is finite. -/
theorem C10_resolved_max :
    (∀ (ti : ℚ) (fs : FilingStatus),
      List.Forall₂
        (fun b e => e.rate = b.rate ∧ e.min = b.min ∧ e.max = b.max.getD ti)
        ((BRACKETS fs).take (computeFederalTax ti fs).breakdown.length)
        (computeFederalTax ti fs).breakdown) ∧
    (∀ (input : StateTaxInput) (info : StateTaxInfo) (res : StateTaxResult),
      STATE_TAX_DATA (jsToUpper input.stateAbbreviation) = some info →
      info.taxType = .progressive →
      calculateStateTax input = Except.ok res →
      List.Forall₂
        (fun b e => e.rate = b.rate ∧ e.min = b.min ∧
          e.max = b.max.getD (max 0 (input.grossIncome - info.standardDeduction.getD 0)))
        ((info.brackets.getD []).take res.brackets.length) res.brackets) := by
  constructor
  · intro ti fs
    rw [computeFederalTax_breakdown]
    exact walk_coverage (BRACKETS fs) (max 0 ti) ti
  · intro input info res hl ht h
    simp only [calculateStateTax, hl, ht, Except.ok.injEq] at h
    subst h
    dsimp only
    exact stateWalk_coverage (info.brackets.getD []) _ _

set_option maxHeartbeats 1000000 in
/-- Witness for C10's state part at Delaware, gross income 5000. -/
theorem C10_resolved_max_witness :
    ∃ (info : StateTaxInfo) (res : StateTaxResult),
      STATE_TAX_DATA (jsToUpper "DE") = some info ∧
      info.taxType = .progressive ∧
      calculateStateTax { stateAbbreviation := "DE", grossIncome := 5000, filingStatus := .single } =
        Except.ok res ∧
      List.Forall₂
        (fun b e => e.rate = b.rate ∧ e.min = b.min ∧
          e.max = b.max.getD (max 0 ((5000 : ℚ) - info.standardDeduction.getD 0)))
        ((info.brackets.getD []).take res.brackets.length) res.brackets := by
  have hup : jsToUpper "DE" = "DE" := by decide
  have hl : STATE_TAX_DATA (jsToUpper "DE") = some
      { name := "Delaware", abbreviation := "DE", taxType := .progressive,
        standardDeduction := some 3250,
        brackets := some [
          { min := 0, max := some 2000, rate := 0.0 },
          { min := 2000, max := some 5000, rate := 0.022 },
          { min := 5000, max := some 10000, rate := 0.039 },
          { min := 10000, max := some 20000, rate := 0.048 },
          { min := 20000, max := some 25000, rate := 0.052 },
          { min := 25000, max := some 60000, rate := 0.055 },
          { min := 60000, max := Option.none, rate := 0.066 } ],
        notableCredits := some ["Earned income credit"] } := by
    rw [hup]
    exact STATE_TAX_DATA_DE
  refine ⟨_, _, hl, rfl, calcStateTax_DE5000, ?_⟩
  exact C10_resolved_max.2 _ _ _ hl rfl calcStateTax_DE5000

/-- Input of the deduction finder.  The source declares `filingStatus` as a
plain string and casts it with `as FilingStatus`; callers supply one of the
four valid statuses, so it is modeled as the enumeration directly.  The
optional numeric fields model the source's optional (possibly `undefined`)
fields. -/
structure DeductionFinderInput where
  grossIncome : ℚ
  filingStatus : FilingStatus
  currentFederalTax : ℚ
  currentDeductions : List Deduction
  hasStudentLoans : Bool
  loanBalance : Option ℚ := Option.none
  hasHSA : Bool
  currentHSAContribution : Option ℚ := Option.none
  wantsIRA : Bool
  currentIRAContribution : Option ℚ := Option.none
  donatesCharity : Bool
  charityAmount : Option ℚ := Option.none
  hasDependents : Bool
  dependentCount : Option ℚ := Option.none
deriving DecidableEq, Repr

structure FoundDeduction where
  name : String
  amount : ℚ
  annualSavings : ℚ
  applicable : Bool
  reason : Option String := Option.none
deriving DecidableEq, Repr

structure DeductionResult where
  deductions : List FoundDeduction
  totalAnnualSavings : ℚ
  totalMonthlySavings : ℚ
  newFederalTax : ℚ
  newEffectiveRate : ℚ
  newTakeHome : ℚ
deriving DecidableEq, Repr

/-- JS truthiness of an optional numeric field: defined and non-zero. -/
def truthy : Option ℚ → Bool
  | Option.none => false
  | some q => decide (q ≠ 0)

/-- Rendering of a number into a message or name string (covers both `${n}`
interpolation and `toLocaleString`; no logic in the source branches on the
rendered digits, only on fixed prefixes of the resulting names). -/
def numStr (q : ℚ) : String := toString q

def labelHas401k (d : Deduction) : Bool := jsIncludes (jsToLower d.label) "401k"

def labelHasHSA (d : Deduction) : Bool := jsIncludes (jsToLower d.label) "hsa"

def labelHasStandard (d : Deduction) : Bool :=
  jsIncludes (jsToLower d.label) "standard"

/-- `findIndex` / replace-at-index / `push` pattern used for the HSA and
401(k) entries of the working deduction list. -/
def replaceOrAppend (l : List Deduction) (p : Deduction → Bool)
    (d : Deduction) : List Deduction :=
  match l.findIdx? p with
  | some i => l.set i d
  | Option.none => l ++ [d]

/-- Rule 1 of `findDeductions` (student loan interest): the produced
`FoundDeduction` entries and the update applied to the working deduction
list. -/
def fd_student (input : DeductionFinderInput) :
    List FoundDeduction × (List Deduction → List Deduction) :=
  if input.hasStudentLoans && truthy input.loanBalance then
    let estimatedInterest := min (input.loanBalance.getD 0 * 0.05) 2500
    let incomeLimit : ℚ :=
      if input.filingStatus = .married_joint then 185000 else 90000
    if input.grossIncome ≤ incomeLimit then
      ([{ name := "Student Loan Interest", amount := mathRound estimatedInterest,
          annualSavings := 0, applicable := true }],
       fun nd => nd ++ [{ label := "Student Loan Interest",
                          amount := mathRound estimatedInterest }])
    else
      ([{ name := "Student Loan Interest", amount := 0, annualSavings := 0,
          applicable := false,
          reason := some ("Income exceeds the $" ++ numStr incomeLimit ++
            " phase-out limit") }],
       fun nd => nd)
  else ([], fun nd => nd)

/-- Rule 2 of `findDeductions` (HSA contribution increase). -/
def fd_hsa (input : DeductionFinderInput) :
    List FoundDeduction × (List Deduction → List Deduction) :=
  if input.hasHSA then
    let currentContribution := input.currentHSAContribution.getD 0
    let maxContribution := HSA_LIMIT_SELF
    let additionalContribution := max 0 (maxContribution - currentContribution)
    if additionalContribution > 0 then
      ([{ name := "Max Out HSA ($" ++ numStr maxContribution ++ ")",
          amount := additionalContribution, annualSavings := 0,
          applicable := true }],
       fun nd => replaceOrAppend nd labelHasHSA
         { label := "HSA Contribution", amount := maxContribution })
    else
      ([{ name := "HSA Contribution", amount := 0, annualSavings := 0,
          applicable := false,
          reason := some "Already at maximum contribution" }],
       fun nd => nd)
  else ([], fun nd => nd)

/-- Rule 3 of `findDeductions` (traditional IRA). -/
def fd_ira (input : DeductionFinderInput) :
    List FoundDeduction × (List Deduction → List Deduction) :=
  if input.wantsIRA then
    let currentContribution := input.currentIRAContribution.getD 0
    let additionalIRA := max 0 (IRA_LIMIT - currentContribution)
    let incomeLimit :=
      if input.filingStatus = .married_joint then IRA_INCOME_LIMIT_JOINT
      else IRA_INCOME_LIMIT_SINGLE
    if additionalIRA > 0 ∧ input.grossIncome ≤ incomeLimit then
      ([{ name := "Traditional IRA ($" ++ numStr IRA_LIMIT ++ " max)",
          amount := additionalIRA, annualSavings := 0, applicable := true }],
       fun nd => nd ++ [{ label := "Traditional IRA", amount := IRA_LIMIT }])
    else if input.grossIncome > incomeLimit then
      ([{ name := "Traditional IRA", amount := 0, annualSavings := 0,
          applicable := false,
          reason := some ("Income exceeds $" ++ numStr incomeLimit ++
            " deductibility phase-out") }],
       fun nd => nd)
    else
      ([{ name := "Traditional IRA", amount := 0, annualSavings := 0,
          applicable := false,
          reason := some "Already at maximum contribution" }],
       fun nd => nd)
  else ([], fun nd => nd)

/-- Rule 4 of `findDeductions` (charitable donations); it does not touch the
working deduction list. -/
def fd_charity (input : DeductionFinderInput) : List FoundDeduction :=
  if input.donatesCharity && truthy input.charityAmount then
    let standardDeduction := STANDARD_DEDUCTIONS input.filingStatus
    let currentItemized :=
      ((input.currentDeductions.filter fun d =>
          !labelHas401k d && !labelHasHSA d && !labelHasStandard d).map
        Deduction.amount).sum
    let totalItemized := currentItemized + input.charityAmount.getD 0
    if totalItemized > standardDeduction then
      [{ name := "Charitable Donations (Itemized)",
         amount := input.charityAmount.getD 0, annualSavings := 0,
         applicable := true }]
    else
      [{ name := "Charitable Donations", amount := input.charityAmount.getD 0,
         annualSavings := 0, applicable := false,
         reason := some ("Total itemized deductions ($" ++ numStr totalItemized ++
           ") don't exceed the standard deduction ($" ++
           numStr standardDeduction ++ ")") }]
  else []

/-- The always-evaluated 401(k) rule of `findDeductions`. -/
def fd_401k (input : DeductionFinderInput) :
    List FoundDeduction × (List Deduction → List Deduction) :=
  let current401k :=
    ((input.currentDeductions.find? labelHas401k).map Deduction.amount).getD 0
  let additional401k := max 0 (LIMIT_401K - current401k)
  if additional401k > 0 then
    ([{ name := "Increase 401(k) to $" ++ numStr LIMIT_401K ++ " max",
        amount := additional401k, annualSavings := 0, applicable := true }],
     fun nd => replaceOrAppend nd labelHas401k
       { label := "401(k) Contribution", amount := LIMIT_401K })
  else ([], fun nd => nd)

/-- Rule 5 of `findDeductions` (dependents / Child Tax Credit): the only
entry whose `annualSavings` is set at construction and whose `reason` is
set although it is applicable. -/
def fd_child (input : DeductionFinderInput) : List FoundDeduction :=
  if input.hasDependents && truthy input.dependentCount then
    let cnt := input.dependentCount.getD 0
    let totalCredit := cnt * 2000
    [{ name := "Child Tax Credit (" ++ numStr cnt ++ " dependent" ++
         (if cnt > 1 then "s" else "") ++ ")",
       amount := totalCredit, annualSavings := totalCredit, applicable := true,
       reason := some "This is a tax credit, not a deduction — it reduces your tax bill directly" }]
  else []

/-- The `foundDeductions` list of `findDeductions`, before the proportional
savings distribution, in source push order. -/
def fd_found (input : DeductionFinderInput) : List FoundDeduction :=
  (fd_student input).1 ++ (fd_hsa input).1 ++ (fd_ira input).1 ++
    fd_charity input ++ (fd_401k input).1 ++ fd_child input

/-- The working `newDeductions` list, after all rules ran, in source order:
a copy of `currentDeductions` threaded through the updates of rules 1-3 and
the 401(k) rule. -/
def fd_newDeductions (input : DeductionFinderInput) : List Deduction :=
  (fd_401k input).2 ((fd_ira input).2 ((fd_hsa input).2
    ((fd_student input).2 input.currentDeductions)))

/-- The recomputed federal tax situation on the new deduction list. -/
def fd_newResult (input : DeductionFinderInput) : TaxResult :=
  calculateFederalTax
    { grossIncome := input.grossIncome, filingStatus := input.filingStatus,
      deductions := fd_newDeductions input }

/-- `childCredit` of `findDeductions` (guarded by `hasDependents` only). -/
def fd_childCredit (input : DeductionFinderInput) : ℚ :=
  if input.hasDependents then input.dependentCount.getD 0 * 2000 else 0

/-- `adjustedNewTax` of `findDeductions`. -/
def fd_adjustedNewTax (input : DeductionFinderInput) : ℚ :=
  max 0 ((fd_newResult input).federalTax - fd_childCredit input)

/-- `taxSavings` of `findDeductions`. -/
def fd_taxSavings (input : DeductionFinderInput) : ℚ :=
  input.currentFederalTax - fd_adjustedNewTax input

/-- The exact template string the `applicableCount` filter compares against
(interpolating an absent `dependentCount` renders "undefined"). -/
def fd_childTemplate (input : DeductionFinderInput) : String :=
  "Child Tax Credit (" ++
    (match input.dependentCount with
     | some q => numStr q
     | Option.none => "undefined") ++
    " dependent" ++ (if input.dependentCount.getD 0 > 1 then "s" else "") ++ ")"

/-- `applicableCount` of `findDeductions`. -/
def fd_applicableCount (input : DeductionFinderInput) : ℕ :=
  ((fd_found input).filter fun d =>
    d.applicable && d.name != fd_childTemplate input).length

/-- `totalApplicableAmount` of `findDeductions`. -/
def fd_totalApplicableAmount (input : DeductionFinderInput) : ℚ :=
  (((fd_found input).filter fun d =>
      d.applicable && !jsStartsWith d.name "Child Tax Credit").map
    FoundDeduction.amount).sum

/-- The per-entry mutation of the distribution loop of `findDeductions`. -/
def fd_update (input : DeductionFinderInput) (d : FoundDeduction) :
    FoundDeduction :=
  if d.applicable && !jsStartsWith d.name "Child Tax Credit" then
    { d with annualSavings :=
        if fd_totalApplicableAmount input > 0 then
          mathRound (d.amount / fd_totalApplicableAmount input *
            (fd_taxSavings input - fd_childCredit input))
        else 0 }
  else d

/-- The found-deduction list after the proportional distribution loop. -/
def fd_distribute (input : DeductionFinderInput) : List FoundDeduction :=
  if fd_applicableCount input > 0 ∧ fd_taxSavings input > 0 then
    (fd_found input).map (fd_update input)
  else fd_found input

/-- Source `findDeductions` (the `async` wrapper does no I/O), assembled
from the pieces above in source order. -/
def findDeductions (input : DeductionFinderInput) : DeductionResult :=
  let totalAnnualSavings :=
    max 0 (mathRound (input.currentFederalTax - fd_adjustedNewTax input))
  let newPreTax :=
    (((fd_newDeductions input).filter fun d => isPreTaxLabel d.label).map
      Deduction.amount).sum
  let newTakeHome := input.grossIncome - fd_adjustedNewTax input -
    computeFICA input.grossIncome input.filingStatus - newPreTax
  let totalTaxNew :=
    fd_adjustedNewTax input + computeFICA input.grossIncome input.filingStatus
  { deductions := fd_distribute input
    totalAnnualSavings := totalAnnualSavings
    totalMonthlySavings := mathRound (totalAnnualSavings / 12)
    newFederalTax := fd_adjustedNewTax input
    newEffectiveRate :=
      if input.grossIncome > 0 then round4 (totalTaxNew / input.grossIncome)
      else 0
    newTakeHome := mathRound newTakeHome }

theorem string_data_append (s t : String) : (s ++ t).data = s.data ++ t.data := by
  cases s
  cases t
  rfl

theorem listStarts_nil (s : List Char) : listStarts s [] = true := by
  cases s <;> rfl

theorem listStarts_append (p : List Char) :
    ∀ (a b : List Char), listStarts a p = true → listStarts (a ++ b) p = true := by
  induction p with
  | nil =>
    intro a b _
    exact listStarts_nil _
  | cons d ds ih =>
    intro a b h
    cases a with
    | nil => simp [listStarts] at h
    | cons c cs =>
      simp only [List.cons_append, listStarts, Bool.and_eq_true,
        decide_eq_true_eq] at h ⊢
      exact ⟨h.1, ih cs b h.2⟩

theorem jsStartsWith_append (s t p : String) (h : jsStartsWith s p = true) :
    jsStartsWith (s ++ t) p = true := by
  unfold jsStartsWith at h ⊢
  rw [string_data_append]
  exact listStarts_append _ _ _ h

/-- The Child Tax Credit entry's name always starts with "Child Tax Credit",
whatever the interpolated pieces are. -/
theorem child_name_prefix (a b c d : String) :
    jsStartsWith ("Child Tax Credit (" ++ a ++ b ++ c ++ d)
      "Child Tax Credit" = true := by
  apply jsStartsWith_append
  apply jsStartsWith_append
  apply jsStartsWith_append
  apply jsStartsWith_append
  decide

theorem fd_update_name (input : DeductionFinderInput) (d : FoundDeduction) :
    (fd_update input d).name = d.name := by
  unfold fd_update
  split <;> rfl

theorem fd_update_amount (input : DeductionFinderInput) (d : FoundDeduction) :
    (fd_update input d).amount = d.amount := by
  unfold fd_update
  split <;> rfl

theorem fd_update_applicable (input : DeductionFinderInput) (d : FoundDeduction) :
    (fd_update input d).applicable = d.applicable := by
  unfold fd_update
  split <;> rfl

theorem fd_update_reason (input : DeductionFinderInput) (d : FoundDeduction) :
    (fd_update input d).reason = d.reason := by
  unfold fd_update
  split <;> rfl

theorem fd_update_savings_of_cond (input : DeductionFinderInput)
    {d : FoundDeduction}
    (h : (d.applicable && !jsStartsWith d.name "Child Tax Credit") = true) :
    (fd_update input d).annualSavings =
      if fd_totalApplicableAmount input > 0 then
        mathRound (d.amount / fd_totalApplicableAmount input *
          (fd_taxSavings input - fd_childCredit input))
      else 0 := by
  unfold fd_update
  rw [if_pos h]

theorem fd_update_of_not_cond (input : DeductionFinderInput)
    {d : FoundDeduction}
    (h : ¬ (d.applicable && !jsStartsWith d.name "Child Tax Credit") = true) :
    fd_update input d = d := by
  unfold fd_update
  rw [if_neg h]

theorem findDeductions_deductions (input : DeductionFinderInput) :
    (findDeductions input).deductions = fd_distribute input := rfl

/-- Every entry produced by the five non-credit rules has `annualSavings`
initialized to `0` and carries a `reason` only when it is not applicable. -/
theorem fd_nonchild_entries (input : DeductionFinderInput) :
    ∀ e ∈ (fd_student input).1 ++ (fd_hsa input).1 ++ (fd_ira input).1 ++
        fd_charity input ++ (fd_401k input).1,
      (e.applicable = true → e.reason = Option.none) ∧ e.annualSavings = 0 := by
  intro e he
  simp only [List.mem_append] at he
  rcases he with (((h | h) | h) | h) | h
  all_goals
    simp only [fd_student, fd_hsa, fd_ira, fd_charity, fd_401k] at h
  all_goals
    repeat' split at h
  all_goals
    simp at h
  all_goals
    subst h
  all_goals
    refine ⟨fun happ => ?_, rfl⟩
  all_goals
    first
      | rfl
      | simp at happ

/-- Every entry of the Child Tax Credit rule has a name starting with
"Child Tax Credit". -/
theorem fd_child_entries (input : DeductionFinderInput) :
    ∀ e ∈ fd_child input, jsStartsWith e.name "Child Tax Credit" = true := by
  intro e he
  unfold fd_child at he
  split at he
  · simp only [List.mem_singleton] at he
    subst he
    exact child_name_prefix _ _ _ _
  · simp at he

theorem fd_found_nonchild (input : DeductionFinderInput) :
    ∀ e ∈ fd_found input, jsStartsWith e.name "Child Tax Credit" = false →
      (e.applicable = true → e.reason = Option.none) ∧ e.annualSavings = 0 := by
  intro e he hpre
  unfold fd_found at he
  rcases List.mem_append.mp he with h | h
  · exact fd_nonchild_entries input e h
  · exact absurd (fd_child_entries input e h) (by simp [hpre])

/-- C4 (amended): in every result of `findDeductions`, every entry other
than the Child Tax Credit entry (whose name starts with "Child Tax Credit"
and which carries an explanatory reason although applicable) has its
`reason` populated only when `applicable` is false. -/
theorem C4_reason_only_when_inapplicable (input : DeductionFinderInput) :
    ∀ e ∈ (findDeductions input).deductions,
      jsStartsWith e.name "Child Tax Credit" = false →
      e.applicable = true → e.reason = Option.none := by
  intro e he hpre happ
  rw [findDeductions_deductions] at he
  unfold fd_distribute at he
  split at he
  · obtain ⟨d, hdm, rfl⟩ := List.mem_map.mp he
    rw [fd_update_name] at hpre
    rw [fd_update_applicable] at happ
    rw [fd_update_reason]
    exact (fd_found_nonchild input d hdm hpre).1 happ
  · exact (fd_found_nonchild input e he hpre).1 happ

theorem fd_401k_applicable (input : DeductionFinderInput) :
    ∀ e ∈ (fd_401k input).1, e.applicable = true := by
  intro e he
  simp only [fd_401k] at he
  split at he
  · simp only [List.mem_singleton] at he
    subst he
    rfl
  · simp at he

theorem fd_401k_len (input : DeductionFinderInput) :
    (fd_401k input).1.length ≤ 1 := by
  simp only [fd_401k]
  split <;> simp

/-- C5 (amended): with all five toggles disabled, only the always-evaluated
401(k) rule runs: every returned entry is applicable, there is at most one,
an entry is present exactly when the current 401(k) contribution is below
the `LIMIT_401K` cap, and `totalAnnualSavings` is
`max 0 (round (currentFederalTax − newFederalTax))` — which need not be
`0`, since the 401(k) recomputation still happens. -/
theorem C5_all_toggles_disabled (input : DeductionFinderInput)
    (h1 : input.hasStudentLoans = false) (h2 : input.hasHSA = false)
    (h3 : input.wantsIRA = false) (h4 : input.donatesCharity = false)
    (h5 : input.hasDependents = false) :
    (∀ e ∈ (findDeductions input).deductions, e.applicable = true) ∧
    (findDeductions input).deductions.length ≤ 1 ∧
    ((findDeductions input).deductions ≠ [] ↔
      ((input.currentDeductions.find? labelHas401k).map
        Deduction.amount).getD 0 < LIMIT_401K) ∧
    (findDeductions input).totalAnnualSavings =
      max 0 (mathRound (input.currentFederalTax -
        (findDeductions input).newFederalTax)) := by
  have hs : (fd_student input).1 = [] := by
    unfold fd_student
    rw [h1]
    rfl
  have hh : (fd_hsa input).1 = [] := by
    unfold fd_hsa
    rw [h2]
    rfl
  have hi : (fd_ira input).1 = [] := by
    unfold fd_ira
    rw [h3]
    rfl
  have hc : fd_charity input = [] := by
    unfold fd_charity
    rw [h4]
    rfl
  have hch : fd_child input = [] := by
    unfold fd_child
    rw [h5]
    rfl
  have hfound : fd_found input = (fd_401k input).1 := by
    unfold fd_found
    rw [hs, hh, hi, hc, hch]
    simp
  have h401 : ((fd_401k input).1 ≠ []) ↔
      ((input.currentDeductions.find? labelHas401k).map
        Deduction.amount).getD 0 < LIMIT_401K := by
    simp only [fd_401k]
    split
    · rename_i hpos
      refine ⟨fun _ => ?_, fun _ => by simp⟩
      rcases lt_max_iff.mp hpos with h0 | h0
      · exact absurd h0 (lt_irrefl 0)
      · exact sub_pos.mp h0
    · rename_i hneg
      refine ⟨fun hne => absurd rfl hne, fun hlt => ?_⟩
      exact absurd (lt_max_iff.mpr (Or.inr (sub_pos.mpr hlt))) hneg
  refine ⟨?_, ?_, ?_, rfl⟩
  · intro e he
    rw [findDeductions_deductions] at he
    unfold fd_distribute at he
    split at he
    · obtain ⟨d, hdm, rfl⟩ := List.mem_map.mp he
      rw [fd_update_applicable]
      exact fd_401k_applicable input d (hfound ▸ hdm)
    · exact fd_401k_applicable input e (hfound ▸ he)
  · rw [findDeductions_deductions]
    unfold fd_distribute
    split
    · rw [List.length_map, hfound]
      exact fd_401k_len input
    · rw [hfound]
      exact fd_401k_len input
  · rw [findDeductions_deductions]
    unfold fd_distribute
    rw [hfound]
    split
    · rw [ne_eq, List.map_eq_nil_iff]
      exact h401
    · exact h401

/-- C8 (amended): (i) with dependents enabled and a positive count, the
Child Tax Credit entry's `annualSavings` is set directly to
`count × 2000`, bypassing the proportional distribution; (ii) when some
non-credit entry is applicable, the tax savings are positive, and the
applicable non-credit amounts sum to a positive total, each applicable
non-credit entry receives `round(amount / total × (taxSavings −
childCredit))`; (iii) when that sum is not positive the distribution loop
sets those savings to `0` instead; (iv) when no entry counts as applicable
or the savings are not positive, all non-credit savings stay `0`. -/
theorem C8_savings_attribution (input : DeductionFinderInput) :
    (input.hasDependents = true → ∀ c : ℚ, input.dependentCount = some c →
      0 < c →
      ∃ e ∈ (findDeductions input).deductions,
        jsStartsWith e.name "Child Tax Credit" = true ∧
        e.annualSavings = c * 2000) ∧
    (0 < fd_applicableCount input → 0 < fd_taxSavings input →
      0 < fd_totalApplicableAmount input →
      ∀ e ∈ (findDeductions input).deductions, e.applicable = true →
        jsStartsWith e.name "Child Tax Credit" = false →
        e.annualSavings = mathRound (e.amount / fd_totalApplicableAmount input *
          (fd_taxSavings input - fd_childCredit input))) ∧
    (0 < fd_applicableCount input → 0 < fd_taxSavings input →
      fd_totalApplicableAmount input ≤ 0 →
      ∀ e ∈ (findDeductions input).deductions, e.applicable = true →
        jsStartsWith e.name "Child Tax Credit" = false →
        e.annualSavings = 0) ∧
    ((fd_applicableCount input = 0 ∨ fd_taxSavings input ≤ 0) →
      ∀ e ∈ (findDeductions input).deductions,
        jsStartsWith e.name "Child Tax Credit" = false →
        e.annualSavings = 0) := by
  refine ⟨?_, ?_, ?_, ?_⟩
  · intro hdep c hsome hpos
    have htr : truthy input.dependentCount = true := by
      rw [hsome]
      simp only [truthy, decide_eq_true_eq]
      exact ne_of_gt hpos
    have hseg : fd_child input =
        [{ name := "Child Tax Credit (" ++ numStr c ++ " dependent" ++
             (if c > 1 then "s" else "") ++ ")",
           amount := c * 2000, annualSavings := c * 2000, applicable := true,
           reason := some "This is a tax credit, not a deduction — it reduces your tax bill directly" }] := by
      unfold fd_child
      rw [hdep, htr, hsome]
      rfl
    set ce : FoundDeduction :=
      { name := "Child Tax Credit (" ++ numStr c ++ " dependent" ++
          (if c > 1 then "s" else "") ++ ")",
        amount := c * 2000, annualSavings := c * 2000, applicable := true,
        reason := some "This is a tax credit, not a deduction — it reduces your tax bill directly" } with hce
    have hpre : jsStartsWith ce.name "Child Tax Credit" = true :=
      child_name_prefix _ _ _ _
    have hmem : ce ∈ fd_found input := by
      unfold fd_found
      rw [hseg]
      simp
    rw [findDeductions_deductions]
    unfold fd_distribute
    split
    · refine ⟨ce, ?_, hpre, rfl⟩
      apply List.mem_map.mpr
      refine ⟨ce, hmem, ?_⟩
      apply fd_update_of_not_cond
      simp [hpre]
    · exact ⟨ce, hmem, hpre, rfl⟩
  · intro hac hts hta e he happ hpre
    rw [findDeductions_deductions] at he
    unfold fd_distribute at he
    rw [if_pos ⟨hac, hts⟩] at he
    obtain ⟨d, hdm, rfl⟩ := List.mem_map.mp he
    rw [fd_update_name] at hpre
    rw [fd_update_applicable] at happ
    rw [fd_update_amount]
    rw [fd_update_savings_of_cond input (by simp [happ, hpre]),
      if_pos hta]
  · intro hac hts hta e he happ hpre
    rw [findDeductions_deductions] at he
    unfold fd_distribute at he
    rw [if_pos ⟨hac, hts⟩] at he
    obtain ⟨d, hdm, rfl⟩ := List.mem_map.mp he
    rw [fd_update_name] at hpre
    rw [fd_update_applicable] at happ
    rw [fd_update_savings_of_cond input (by simp [happ, hpre]),
      if_neg (not_lt.mpr hta)]
  · intro hor e he hpre
    rw [findDeductions_deductions] at he
    unfold fd_distribute at he
    rw [if_neg (by
      rintro ⟨hac, hts⟩
      rcases hor with h | h
      · omega
      · linarith)] at he
    exact (fd_found_nonchild input e he hpre).2

theorem findDeductions_totalAnnualSavings (input : DeductionFinderInput) :
    (findDeductions input).totalAnnualSavings =
      max 0 (mathRound (input.currentFederalTax - fd_adjustedNewTax input)) := rfl

/-- Counterexample input for C4: only dependents enabled, one dependent. -/
def ex4 : DeductionFinderInput :=
  { grossIncome := 0, filingStatus := .single, currentFederalTax := 0,
    currentDeductions := [], hasStudentLoans := false, hasHSA := false,
    wantsIRA := false, donatesCharity := false, hasDependents := true,
    dependentCount := some 1 }

/-- C4 counterexample: with one dependent, the returned Child Tax Credit
entry has `applicable = true` and a non-empty `reason`, contradicting the
claim that `reason` is populated only when `applicable` is false. -/
theorem C4_counterexample :
    ∃ e ∈ (findDeductions ex4).deductions,
      e.applicable = true ∧ e.reason ≠ Option.none := by
  have hseg : fd_child ex4 =
      [{ name := "Child Tax Credit (" ++ numStr 1 ++ " dependent" ++
           (if (1:ℚ) > 1 then "s" else "") ++ ")",
         amount := 1 * 2000, annualSavings := 1 * 2000, applicable := true,
         reason := some "This is a tax credit, not a deduction — it reduces your tax bill directly" }] := by
    norm_num [fd_child, ex4, truthy]
  set ce : FoundDeduction :=
    { name := "Child Tax Credit (" ++ numStr 1 ++ " dependent" ++
        (if (1:ℚ) > 1 then "s" else "") ++ ")",
      amount := 1 * 2000, annualSavings := 1 * 2000, applicable := true,
      reason := some "This is a tax credit, not a deduction — it reduces your tax bill directly" }
  have hmem : ce ∈ fd_found ex4 := by
    unfold fd_found
    rw [hseg]
    simp
  rw [findDeductions_deductions]
  unfold fd_distribute
  split
  · refine ⟨fd_update ex4 ce, List.mem_map_of_mem _ hmem, ?_, ?_⟩
    · rw [fd_update_applicable]
    · rw [fd_update_reason]
      simp
  · exact ⟨ce, hmem, rfl, by simp⟩

/-- Witness input for the amended C4: everything disabled, so only the
401(k) entry (applicable, no reason) is produced. -/
def ex4w : DeductionFinderInput :=
  { grossIncome := 40000, filingStatus := .single, currentFederalTax := 3000,
    currentDeductions := [], hasStudentLoans := false, hasHSA := false,
    wantsIRA := false, donatesCharity := false, hasDependents := false }

/-- Witness for the amended C4 at the 401(k) entry of `ex4w`. -/
theorem C4_reason_only_when_inapplicable_witness :
    ∃ e ∈ (findDeductions ex4w).deductions,
      jsStartsWith e.name "Child Tax Credit" = false ∧ e.applicable = true ∧
      e.reason = Option.none := by
  have hseg : (fd_401k ex4w).1 =
      [{ name := "Increase 401(k) to $" ++ numStr 23000 ++ " max",
         amount := 23000, annualSavings := 0, applicable := true,
         reason := Option.none }] := by
    norm_num [fd_401k, ex4w, LIMIT_401K, List.find?]
  set ke : FoundDeduction :=
    { name := "Increase 401(k) to $" ++ numStr 23000 ++ " max",
      amount := 23000, annualSavings := 0, applicable := true,
      reason := Option.none }
  have hmem : ke ∈ fd_found ex4w := by
    unfold fd_found
    rw [hseg]
    simp [fd_child, ex4w, truthy]
  have hpre : jsStartsWith ke.name "Child Tax Credit" = false := by decide
  have hex : ∃ e ∈ (findDeductions ex4w).deductions,
      e.name = ke.name ∧ e.applicable = ke.applicable := by
    rw [findDeductions_deductions]
    unfold fd_distribute
    split
    · exact ⟨fd_update ex4w ke, List.mem_map_of_mem _ hmem,
        fd_update_name ex4w ke, fd_update_applicable ex4w ke⟩
    · exact ⟨ke, hmem, rfl, rfl⟩
  obtain ⟨e, hemem, hname, happ⟩ := hex
  have hpre2 : jsStartsWith e.name "Child Tax Credit" = false := by
    rw [hname]
    exact hpre
  have happ2 : e.applicable = true := happ
  exact ⟨e, hemem, hpre2, happ2,
    C4_reason_only_when_inapplicable ex4w e hemem hpre2 happ2⟩

/-- Counterexample input for C5: all five toggles disabled. -/
def ex5 : DeductionFinderInput :=
  { grossIncome := 60000, filingStatus := .single, currentFederalTax := 5000,
    currentDeductions := [], hasStudentLoans := false, hasHSA := false,
    wantsIRA := false, donatesCharity := false, hasDependents := false }

theorem ex5_newDeductions : fd_newDeductions ex5 =
    [{ label := "401(k) Contribution", amount := 23000 }] := by
  norm_num [fd_newDeductions, fd_student, fd_hsa, fd_ira, fd_401k, ex5,
    truthy, replaceOrAppend, labelHas401k, LIMIT_401K, List.find?,
    List.findIdx?]

theorem ex5_adjustedNewTax : fd_adjustedNewTax ex5 = 4208 := by
  have hfed : (fd_newResult ex5).federalTax = 4208 := by
    rw [fd_newResult, ex5_newDeductions, calculateFederalTax_federalTax]
    norm_num [computeFederalTax_tax, bracketWalk, BRACKETS, ex5, round2,
      mathRound_natLit, min_def, max_def]
  have hcc : fd_childCredit ex5 = 0 := by norm_num [fd_childCredit, ex5]
  rw [fd_adjustedNewTax, hfed, hcc]
  norm_num [max_def]

/-- C5 counterexample: with every toggle disabled the 401(k) rule still
runs; at `ex5` the result has `totalAnnualSavings = 792 ≠ 0`, so the claim
(totalAnnualSavings = 0 and every entry inapplicable) fails. -/
theorem C5_counterexample :
    (findDeductions ex5).totalAnnualSavings = 792 ∧
    ¬ ((findDeductions ex5).totalAnnualSavings = 0 ∧
       ∀ e ∈ (findDeductions ex5).deductions, e.applicable = false) := by
  have h792 : (findDeductions ex5).totalAnnualSavings = 792 := by
    rw [findDeductions_totalAnnualSavings, ex5_adjustedNewTax]
    norm_num [ex5, mathRound_natLit, max_def]
  refine ⟨h792, ?_⟩
  rintro ⟨h0, _⟩
  rw [h792] at h0
  norm_num at h0

/-- Witness input for the amended C5. -/
def ex5w : DeductionFinderInput :=
  { grossIncome := 80000, filingStatus := .married_joint,
    currentFederalTax := 6000, currentDeductions := [],
    hasStudentLoans := false, hasHSA := false, wantsIRA := false,
    donatesCharity := false, hasDependents := false }

/-- Witness for the amended C5: applies it at `ex5w`, discharging the five
toggle hypotheses; since `ex5w` has no current 401(k) contribution (below
the cap), the presence biconditional exhibits a nonempty entry list. -/
theorem C5_all_toggles_disabled_witness :
    (ex5w.hasStudentLoans = false ∧ ex5w.hasHSA = false ∧
      ex5w.wantsIRA = false ∧ ex5w.donatesCharity = false ∧
      ex5w.hasDependents = false) ∧
    ((∀ e ∈ (findDeductions ex5w).deductions, e.applicable = true) ∧
      (findDeductions ex5w).deductions.length ≤ 1 ∧
      ((findDeductions ex5w).deductions ≠ [] ↔
        ((ex5w.currentDeductions.find? labelHas401k).map
          Deduction.amount).getD 0 < LIMIT_401K) ∧
      (findDeductions ex5w).totalAnnualSavings =
        max 0 (mathRound (ex5w.currentFederalTax -
          (findDeductions ex5w).newFederalTax))) ∧
    (findDeductions ex5w).deductions ≠ [] := by
  have h := C5_all_toggles_disabled ex5w rfl rfl rfl rfl rfl
  refine ⟨⟨rfl, rfl, rfl, rfl, rfl⟩, h, h.2.2.1.mpr ?_⟩
  norm_num [ex5w, LIMIT_401K]

/-- Counterexample input for C8: a negative loan balance makes the single
applicable non-credit entry carry amount `-5`, so the applicable amounts
sum to a negative total and the source's `totalApplicableAmount > 0` guard
fires, setting the savings to `0` instead of the claimed quotient. -/
def ex8 : DeductionFinderInput :=
  { grossIncome := 50000, filingStatus := .single, currentFederalTax := 10000,
    currentDeductions := [{ label := "401k", amount := 23000 }],
    hasStudentLoans := true, loanBalance := some (-100), hasHSA := false,
    wantsIRA := false, donatesCharity := false, hasDependents := false }

/-- The single found entry of `ex8`. -/
def ex8_entry : FoundDeduction :=
  { name := "Student Loan Interest", amount := -5, annualSavings := 0,
    applicable := true, reason := Option.none }

theorem ex8_student_pair : fd_student ex8 =
    ([ex8_entry],
     fun nd => nd ++ [{ label := "Student Loan Interest", amount := -5 }]) := by
  have hfs : (FilingStatus.single = FilingStatus.married_joint) = False := by
    simp
  norm_num [fd_student, ex8, ex8_entry, truthy, min_def, mathRound_neg_natLit,
    hfs]

theorem ex8_401k_pair : fd_401k ex8 = ([], fun nd => nd) := by
  have hfind : List.find? labelHas401k ex8.currentDeductions =
      some { label := "401k", amount := 23000 } := by decide
  simp only [fd_401k, hfind, Option.map_some', Option.getD_some]
  norm_num [LIMIT_401K]

theorem ex8_found : fd_found ex8 = [ex8_entry] := by
  rw [fd_found, ex8_student_pair, ex8_401k_pair]
  norm_num [fd_hsa, fd_ira, fd_charity, fd_child, ex8, truthy]

theorem ex8_newDeductions : fd_newDeductions ex8 =
    [{ label := "401k", amount := 23000 },
     { label := "Student Loan Interest", amount := -5 }] := by
  rw [fd_newDeductions, ex8_student_pair, ex8_401k_pair]
  norm_num [fd_hsa, fd_ira, ex8]

theorem ex8_fed : (fd_newResult ex8).federalTax = 3009 := by
  rw [fd_newResult, ex8_newDeductions, calculateFederalTax_federalTax]
  have hhalf : mathRound ((15043 : ℚ)/5) = 3009 := by
    rw [mathRound_eq_of 3009 (by norm_num) (by norm_num)]
    norm_num
  norm_num [computeFederalTax_tax, bracketWalk, BRACKETS, ex8, round2,
    mathRound_natLit, min_def, max_def, hhalf]

theorem ex8_adjusted : fd_adjustedNewTax ex8 = 3009 := by
  have hcc : fd_childCredit ex8 = 0 := by norm_num [fd_childCredit, ex8]
  rw [fd_adjustedNewTax, ex8_fed, hcc]
  norm_num [max_def]

theorem ex8_ts : fd_taxSavings ex8 = 6991 := by
  rw [fd_taxSavings, ex8_adjusted]
  norm_num [ex8]

theorem ex8_ta : fd_totalApplicableAmount ex8 = -5 := by
  rw [fd_totalApplicableAmount, ex8_found]
  have hpre : jsStartsWith "Student Loan Interest" "Child Tax Credit" = false := by
    decide
  simp [List.filter, ex8_entry, hpre]

theorem ex8_ac : 0 < fd_applicableCount ex8 := by
  rw [fd_applicableCount, ex8_found]
  have hb : (ex8_entry.applicable &&
      (ex8_entry.name != fd_childTemplate ex8)) = true := by decide
  simp [List.filter, hb]

theorem ex8_deductions : (findDeductions ex8).deductions = [ex8_entry] := by
  rw [findDeductions_deductions]
  unfold fd_distribute
  rw [if_pos ⟨ex8_ac, by rw [ex8_ts]; norm_num⟩, ex8_found]
  have hcond : (ex8_entry.applicable &&
      !jsStartsWith ex8_entry.name "Child Tax Credit") = true := by decide
  have hupd : fd_update ex8 ex8_entry = ex8_entry := by
    unfold fd_update
    rw [if_pos hcond, ex8_ta, if_neg (by norm_num)]
    rfl
  rw [List.map_cons, List.map_nil, hupd]

/-- C8 counterexample: at `ex8` the distribution loop runs (one applicable
non-credit entry, positive savings), yet the entry's `annualSavings` is `0`
while the claimed quotient formula evaluates to `6991`: the claim omits the
code's `totalApplicableAmount > 0` guard. -/
theorem C8_counterexample :
    0 < fd_applicableCount ex8 ∧ 0 < fd_taxSavings ex8 ∧
    ∃ e ∈ (findDeductions ex8).deductions,
      e.applicable = true ∧ jsStartsWith e.name "Child Tax Credit" = false ∧
      e.annualSavings = 0 ∧
      mathRound (e.amount / fd_totalApplicableAmount ex8 *
        (fd_taxSavings ex8 - fd_childCredit ex8)) = 6991 ∧
      ¬ e.annualSavings = mathRound (e.amount / fd_totalApplicableAmount ex8 *
        (fd_taxSavings ex8 - fd_childCredit ex8)) := by
  have hcc : fd_childCredit ex8 = 0 := by norm_num [fd_childCredit, ex8]
  have hform : mathRound (ex8_entry.amount / fd_totalApplicableAmount ex8 *
      (fd_taxSavings ex8 - fd_childCredit ex8)) = 6991 := by
    rw [ex8_ta, ex8_ts, hcc]
    norm_num [ex8_entry, mathRound_natLit]
  refine ⟨ex8_ac, by rw [ex8_ts]; norm_num, ex8_entry,
    by rw [ex8_deductions]; simp, rfl, by decide, rfl, hform, ?_⟩
  rw [hform]
  norm_num [ex8_entry]

/-- Witness input for the amended C8: two dependents plus the applicable
401(k) entry, positive savings, positive applicable total. -/
def ex8w : DeductionFinderInput :=
  { grossIncome := 60000, filingStatus := .single, currentFederalTax := 9000,
    currentDeductions := [], hasStudentLoans := false, hasHSA := false,
    wantsIRA := false, donatesCharity := false, hasDependents := true,
    dependentCount := some 2 }

def ex8w_k401 : FoundDeduction :=
  { name := "Increase 401(k) to $" ++ numStr 23000 ++ " max",
    amount := 23000, annualSavings := 0, applicable := true,
    reason := Option.none }

def ex8w_child : FoundDeduction :=
  { name := "Child Tax Credit (" ++ numStr 2 ++ " dependent" ++ "s" ++ ")",
    amount := 4000, annualSavings := 4000, applicable := true,
    reason := some "This is a tax credit, not a deduction — it reduces your tax bill directly" }

theorem ex8w_found : fd_found ex8w = [ex8w_k401, ex8w_child] := by
  norm_num [fd_found, fd_student, fd_hsa, fd_ira, fd_charity, fd_401k,
    fd_child, ex8w, ex8w_k401, ex8w_child, truthy, LIMIT_401K, List.find?]

theorem ex8w_newDeductions : fd_newDeductions ex8w =
    [{ label := "401(k) Contribution", amount := 23000 }] := by
  norm_num [fd_newDeductions, fd_student, fd_hsa, fd_ira, fd_401k, ex8w,
    truthy, replaceOrAppend, labelHas401k, LIMIT_401K, List.find?,
    List.findIdx?]

theorem ex8w_ts : fd_taxSavings ex8w = 8792 := by
  have hfed : (fd_newResult ex8w).federalTax = 4208 := by
    rw [fd_newResult, ex8w_newDeductions, calculateFederalTax_federalTax]
    norm_num [computeFederalTax_tax, bracketWalk, BRACKETS, ex8w, round2,
      mathRound_natLit, min_def, max_def]
  have hcc : fd_childCredit ex8w = 4000 := by norm_num [fd_childCredit, ex8w]
  have hadj : fd_adjustedNewTax ex8w = 208 := by
    rw [fd_adjustedNewTax, hfed, hcc]
    norm_num [max_def]
  rw [fd_taxSavings, hadj]
  norm_num [ex8w]

theorem ex8w_ta : fd_totalApplicableAmount ex8w = 23000 := by
  rw [fd_totalApplicableAmount, ex8w_found]
  have hpre1 : jsStartsWith ("Increase 401(k) to $" ++ numStr 23000 ++ " max")
      "Child Tax Credit" = false := by decide
  have hpre2 : jsStartsWith ("Child Tax Credit (" ++ numStr 2 ++
      " dependent" ++ "s" ++ ")") "Child Tax Credit" = true := by decide
  simp [List.filter, ex8w_k401, ex8w_child, hpre1, hpre2]

theorem ex8w_ac : 0 < fd_applicableCount ex8w := by
  rw [fd_applicableCount, ex8w_found]
  have hne1 : (("Increase 401(k) to $" ++ numStr 23000 ++ " max") !=
      fd_childTemplate ex8w) = true := by decide
  simp [List.filter, ex8w_k401, hne1]

/-- Witness for the amended C8: applies parts (i) and (ii) at `ex8w`. -/
theorem C8_savings_attribution_witness :
    (ex8w.hasDependents = true ∧ ex8w.dependentCount = some 2 ∧
      (0 : ℚ) < 2 ∧ 0 < fd_applicableCount ex8w ∧ 0 < fd_taxSavings ex8w ∧
      0 < fd_totalApplicableAmount ex8w) ∧
    (∃ e ∈ (findDeductions ex8w).deductions,
      jsStartsWith e.name "Child Tax Credit" = true ∧
      e.annualSavings = (2 : ℚ) * 2000) ∧
    (∀ e ∈ (findDeductions ex8w).deductions, e.applicable = true →
      jsStartsWith e.name "Child Tax Credit" = false →
      e.annualSavings = mathRound (e.amount / fd_totalApplicableAmount ex8w *
        (fd_taxSavings ex8w - fd_childCredit ex8w))) :=
  ⟨⟨rfl, rfl, by norm_num, ex8w_ac, by rw [ex8w_ts]; norm_num,
      by rw [ex8w_ta]; norm_num⟩,
    (C8_savings_attribution ex8w).1 rfl 2 rfl (by norm_num),
    (C8_savings_attribution ex8w).2.1 ex8w_ac (by rw [ex8w_ts]; norm_num)
      (by rw [ex8w_ta]; norm_num)⟩

end TaxEngine
